import Mathlib

/-!
Verification of the two-way lead/task sync engine (`sync_logic.py`,
`lead_client.py`, `task_client.py`, `utils/logger.py`) against its
natural-language specification.

The Python program is shallowly embedded: pure helpers become Lean
functions; the two HTTP clients become state-passing operations over an
explicit `World` (the sheet rows and the board cards) driven by a fault
oracle that decides, per network call, whether the (already retried)
call succeeds, raises, or - for card creation - returns a falsy JSON
body.  Statistics, the operation trace and a tick counter are threaded
through an explicit state `S`.
-/

set_option maxRecDepth 10000

namespace SyncModel

/-! ### Python string primitives

`str.lower`, `str.upper`, `str.strip` and single-character
`str.replace` are modelled over the character list of the string (the
behaviour coincides on the ASCII data the program handles), so that
every definition evaluates inside the kernel. -/

/-- Python `str.lower()`. -/
def pyLower (s : String) : String := String.mk (s.data.map Char.toLower)

/-- Python `str.upper()`. -/
def pyUpper (s : String) : String := String.mk (s.data.map Char.toUpper)

/-- Drop leading and trailing whitespace of a character list. -/
def trimChars (cs : List Char) : List Char :=
  ((cs.dropWhile Char.isWhitespace).reverse.dropWhile Char.isWhitespace).reverse

/-- Python `str.strip()`. -/
def pyStrip (s : String) : String := String.mk (trimChars s.data)

/-- Python `str.replace(a, b)` for one-character `a`/`b`. -/
def pyReplaceChar (s : String) (a b : Char) : String :=
  String.mk (s.data.map (fun c => if c = a then b else c))

/-! ### `utils/logger.py` : `normalize_status` -/

/-- The synonym table of `normalize_status` (`utils/logger.py`),
in source order. -/
def statusMap : List (String × String) :=
  [("new", "new"),
   ("todo", "new"),
   ("pending", "new"),
   ("contacted", "contacted"),
   ("in_progress", "contacted"),
   ("inprogress", "contacted"),
   ("working", "contacted"),
   ("active", "contacted"),
   ("reach_out", "contacted"),
   ("qualified", "qualified"),
   ("done", "qualified"),
   ("complete", "qualified"),
   ("completed", "qualified"),
   ("finished", "qualified"),
   ("won", "qualified"),
   ("success", "qualified"),
   ("lost", "lost"),
   ("rejected", "lost"),
   ("cancelled", "lost"),
   ("closed_lost", "lost"),
   ("dead", "lost")]

/-- The key transformation of `normalize_status`:
`status.lower().strip().replace(' ', '_').replace('-', '_')`. -/
def normalizeKey (status : String) : String :=
  pyReplaceChar (pyReplaceChar (pyStrip (pyLower status)) ' ' '_') '-' '_'

/-- `normalize_status` (`utils/logger.py` lines 160-203). -/
def normalize_status (status : String) : String :=
  if status = "" then "new"
  else ((statusMap.lookup (normalizeKey status)).getD "new")

/-- The four canonical statuses. -/
def isCanonical (s : String) : Prop :=
  s = "new" ∨ s = "contacted" ∨ s = "qualified" ∨ s = "lost"

instance (s : String) : Decidable (isCanonical s) := by
  unfold isCanonical; infer_instance

/-! ### `utils/logger.py` : `retry_with_backoff` -/

/-- Outcome of one raw transport attempt: success, or a raised error
optionally carrying an HTTP status code (`e.response.status_code`). -/
inductive CallResult where
  | success
  | failure (code : Option Nat)
deriving DecidableEq

/-- Result of running an operation under the retry policy: success on a
given attempt index, or the last error re-raised. -/
inductive RetryResult where
  | succ (attempt : Nat)
  | err (code : Option Nat)
deriving DecidableEq

/-- Terminal (non-retryable) classification:
`status_code in [401, 403, 400]`. -/
def terminalCode (code : Option Nat) : Prop :=
  code = some 400 ∨ code = some 401 ∨ code = some 403

instance (code : Option Nat) : Decidable (terminalCode code) := by
  unfold terminalCode; infer_instance

/-- The retry loop of `retry_with_backoff` (`utils/logger.py` lines
89-141).  `attempt` is the current attempt index, `remaining` the number
of attempts still allowed after this one (`max_retries - attempt`).
Returns the list of sleep delays performed and the final result. -/
def retryGo (op : Nat → CallResult) (base factor : Nat) :
    Nat → Nat → List Nat × RetryResult
  | attempt, remaining =>
    match op attempt with
    | .success => ([], .succ attempt)
    | .failure code =>
      if terminalCode code then ([], .err code)
      else
        match remaining with
        | 0 => ([], .err code)
        | r + 1 =>
          let rest := retryGo op base factor (attempt + 1) r
          (base * factor ^ attempt :: rest.1, rest.2)

/-- `retry_with_backoff(max_retries, base_delay, backoff_factor)`
applied to an operation whose per-attempt outcomes are `op`. -/
def retry_with_backoff (maxRetries base factor : Nat)
    (op : Nat → CallResult) : List Nat × RetryResult :=
  retryGo op base factor 0 maxRetries

/-- The decorator with its default arguments, as used on every
decorated client method (`@retry_with_backoff(max_retries=3)` with
`base_delay=1.0`, `backoff_factor=2.0`). -/
def retryDefault (op : Nat → CallResult) : List Nat × RetryResult :=
  retry_with_backoff 3 1 2 op

/-! Transport wrapping of the individual client methods.  Each decorated
method runs its HTTP call under `retryDefault`; `TaskClient.delete_card`
(`task_client.py` lines 355-380) carries no decorator: it performs a
single attempt and catches every exception, returning `False`. -/

/-- `TaskClient.create_card` transport behaviour (decorated). -/
def create_card_net (op : Nat → CallResult) : List Nat × RetryResult :=
  retryDefault op

/-- `TaskClient.get_card` transport behaviour (decorated). -/
def get_card_net (op : Nat → CallResult) : List Nat × RetryResult :=
  retryDefault op

/-- `TaskClient.update_card` transport behaviour (decorated). -/
def update_card_net (op : Nat → CallResult) : List Nat × RetryResult :=
  retryDefault op

/-- `TaskClient.get_all_cards` transport behaviour (decorated). -/
def get_all_cards_net (op : Nat → CallResult) : List Nat × RetryResult :=
  retryDefault op

/-- `LeadClient.read_leads` transport behaviour (decorated). -/
def read_leads_net (op : Nat → CallResult) : List Nat × RetryResult :=
  retryDefault op

/-- `LeadClient.update_lead` transport behaviour (decorated). -/
def update_lead_net (op : Nat → CallResult) : List Nat × RetryResult :=
  retryDefault op

/-- `LeadClient.append_lead` transport behaviour (decorated). -/
def append_lead_net (op : Nat → CallResult) : List Nat × RetryResult :=
  retryDefault op

/-- `TaskClient.delete_card`: NOT decorated.  One attempt; an exception
is caught and turned into `False` (`except Exception ... return False`),
a success returns `True`. -/
def delete_card (op : Nat → CallResult) : Bool :=
  match op 0 with
  | .success => true
  | .failure _ => false

/-! ### Data model -/

/-- One sheet row as returned by `LeadClient.read_leads`
(`row_number, id, name, email, status, source, trello_task_id`). -/
structure Lead where
  row_number : Nat
  id : String
  name : String
  email : String
  status : String
  source : String
  trello_task_id : String
deriving DecidableEq

/-- One Trello card as the engine reads it
(`id`, `name`, `desc`, `idList`). -/
structure Card where
  id : String
  name : String
  desc : String
  idList : String
deriving DecidableEq

/-- The `sync_stats` dictionary of `SyncEngine`. -/
structure Stats where
  leads_created : Nat
  leads_updated : Nat
  tasks_created : Nat
  tasks_updated : Nat
  status_synced_to_sheets : Nat
  errors : Nat
  skipped : Nat
deriving DecidableEq

/-- All-zero statistics, as set by `run_sync`'s reset. -/
def Stats.zero : Stats := ⟨0, 0, 0, 0, 0, 0, 0⟩

/-- Trello board configuration (`TaskClient.__init__`): the four list
ids keyed by canonical status, plus the card-id generator standing for
the ids the Trello server mints for newly created cards. -/
structure TrelloCfg where
  todo : String
  in_progress : String
  done : String
  lost : String
  genId : Nat → String

/-- `self.list_ids` of `TaskClient`, in insertion order. -/
def listIds (cfg : TrelloCfg) : List (String × String) :=
  [("new", cfg.todo),
   ("contacted", cfg.in_progress),
   ("qualified", cfg.done),
   ("lost", cfg.lost)]

/-- `TaskClient.get_status_from_list_id`: first status whose list id
matches, defaulting to `new`. -/
def get_status_from_list_id (cfg : TrelloCfg) (list_id : String) : String :=
  match (listIds cfg).find? (fun p => p.2 == list_id) with
  | some p => p.1
  | none => "new"

/-- Python `'\n'.join(parts)`. -/
def joinLines : List String → String
  | [] => ""
  | [x] => x
  | x :: xs => x ++ "\n" ++ joinLines xs

/-- `TaskClient.format_card_description`. -/
def format_card_description (email source lead_id : String) : String :=
  let parts : List String :=
    (if lead_id ≠ "" then
       ["lead_id: " ++ lead_id, "🆔 Lead ID: " ++ lead_id]
     else []) ++
    (if email ≠ "" then ["📧 Email: " ++ email] else []) ++
    (if source ≠ "" then ["📍 Source: " ++ source] else [])
  if parts.isEmpty then "No information available"
  else joinLines parts

/-- External state: the sheet rows, the board cards, and the counter
feeding the card-id generator. -/
structure World where
  leads : List Lead
  cards : List Card
  nextCardId : Nat
deriving DecidableEq

/-- One network call recorded in the operation trace. -/
inductive Event where
  | readLeads
  | readCards
  | getCard (id : String)
  | createCard (name : String)
  | updateCard (id : String)
  | writeLead (row : Nat)
deriving DecidableEq

/-- Oracle verdict for one (already retried) network call: succeed,
raise, or - for card creation - answer with a falsy JSON body. -/
inductive FaultMode where
  | ok
  | exn
  | falsy
deriving DecidableEq

/-- Fault oracle: verdict for the n-th network call of a run. -/
abbrev FaultO := Nat → FaultMode

/-- Engine-visible state: external world, statistics, operation trace
and the network-call tick counter. -/
structure S where
  world : World
  stats : Stats
  trace : List Event
  tick : Nat
deriving DecidableEq

def bumpErrors (s : S) : S :=
  { s with stats := { s.stats with errors := s.stats.errors + 1 } }

def bumpSkipped (s : S) : S :=
  { s with stats := { s.stats with skipped := s.stats.skipped + 1 } }

def bumpTasksCreated (s : S) : S :=
  { s with stats := { s.stats with tasks_created := s.stats.tasks_created + 1 } }

def bumpTasksUpdated (s : S) : S :=
  { s with stats := { s.stats with tasks_updated := s.stats.tasks_updated + 1 } }

def bumpSynced (s : S) : S :=
  { s with stats :=
      { s.stats with
          status_synced_to_sheets := s.stats.status_synced_to_sheets + 1 } }

/-- Consume one network tick and record the call in the trace. -/
def netOp (faults : FaultO) (s : S) (e : Event) : FaultMode × S :=
  (faults s.tick, { s with tick := s.tick + 1, trace := s.trace ++ [e] })

/-! ### Client operations over the world -/

/-- `LeadClient.read_leads` / `get_all_leads`: returns all sheet rows,
or raises. -/
def read_leads (faults : FaultO) (s : S) : Except Unit (List Lead) × S :=
  let r := netOp faults s .readLeads
  match r.1 with
  | .exn => (.error (), r.2)
  | _ => (.ok r.2.world.leads, r.2)

/-- `TaskClient.get_all_cards` / `get_cards_on_board`. -/
def get_all_cards (faults : FaultO) (s : S) : Except Unit (List Card) × S :=
  let r := netOp faults s .readCards
  match r.1 with
  | .exn => (.error (), r.2)
  | _ => (.ok r.2.world.cards, r.2)

/-- `TaskClient.get_card`: `None` on 404 (card absent from the board),
raise on transport failure. -/
def get_card (faults : FaultO) (s : S) (card_id : String) :
    Except Unit (Option Card) × S :=
  let r := netOp faults s (.getCard card_id)
  match r.1 with
  | .exn => (.error (), r.2)
  | _ => (.ok (r.2.world.cards.find? (fun c => c.id == card_id)), r.2)

/-- `TaskClient.create_card`: mints a fresh card in the list mapped from
`status` (`self.list_ids.get(status.lower(), self.list_ids['new'])`).
A `falsy` verdict models a falsy JSON response body, which
`create_task_for_lead` turns into `None`. -/
def create_card (cfg : TrelloCfg) (faults : FaultO) (s : S)
    (name desc status : String) : Except Unit (Option Card) × S :=
  let r := netOp faults s (.createCard name)
  match r.1 with
  | .exn => (.error (), r.2)
  | .falsy => (.ok none, r.2)
  | .ok =>
    let lid := ((listIds cfg).lookup (pyLower status)).getD cfg.todo
    let c : Card := ⟨cfg.genId r.2.world.nextCardId, name, desc, lid⟩
    (.ok (some c),
     { r.2 with world :=
        { r.2.world with
            cards := r.2.world.cards ++ [c],
            nextCardId := r.2.world.nextCardId + 1 } })

/-- `TaskClient.create_task_for_lead`: builds title/description/status
from the raw lead fields and creates the card, returning its id. -/
def create_task_for_lead (cfg : TrelloCfg) (faults : FaultO) (s : S)
    (lead : Lead) : Except Unit (Option String) × S :=
  let status := normalize_status lead.status
  let desc := format_card_description lead.email lead.source lead.id
  match create_card cfg faults s lead.name desc status with
  | (.error _, s1) => (.error (), s1)
  | (.ok none, s1) => (.ok none, s1)
  | (.ok (some c), s1) => (.ok (some c.id), s1)

/-- Partial update passed to `TaskClient.update_task` /
`update_card` (`fields.get('name')`, `fields.get('description')`,
`fields.get('status')`). -/
structure CardUpdates where
  name : Option String := none
  description : Option String := none
  status : Option String := none

/-- `TaskClient.update_card` (via `update_task`): applies the provided
fields to the card; a status moves the card when the status has a list
id (`self.list_ids.get(status.lower())`), else leaves the list. -/
def update_card (cfg : TrelloCfg) (faults : FaultO) (s : S)
    (card_id : String) (u : CardUpdates) : Except Unit Unit × S :=
  let r := netOp faults s (.updateCard card_id)
  match r.1 with
  | .exn => (.error (), r.2)
  | _ =>
    let apply1 : Card → Card := fun c =>
      if c.id == card_id then
        { c with
            name := u.name.getD c.name,
            desc := u.description.getD c.desc,
            idList :=
              match u.status with
              | none => c.idList
              | some st =>
                match (listIds cfg).lookup (pyLower st) with
                | some lid => lid
                | none => c.idList }
      else c
    (.ok (),
     { r.2 with world := { r.2.world with cards := r.2.world.cards.map apply1 } })

/-- Partial update dictionary passed to
`LeadClient.update_lead_by_row`. -/
structure LeadUpdates where
  id : Option String := none
  name : Option String := none
  email : Option String := none
  status : Option String := none
  source : Option String := none
  trello_task_id : Option String := none

/-- `current_lead.update(updates)`: merge the partial update over the
current row. -/
def applyLeadUpdates (l : Lead) (u : LeadUpdates) : Lead :=
  { row_number := l.row_number,
    id := u.id.getD l.id,
    name := u.name.getD l.name,
    email := u.email.getD l.email,
    status := u.status.getD l.status,
    source := u.source.getD l.source,
    trello_task_id := u.trello_task_id.getD l.trello_task_id }

/-- `LeadClient.update_lead`: write the six columns of one row. -/
def update_lead (faults : FaultO) (s : S) (row : Nat) (ld : Lead) :
    Except Unit Unit × S :=
  let r := netOp faults s (.writeLead row)
  match r.1 with
  | .exn => (.error (), r.2)
  | _ =>
    (.ok (),
     { r.2 with world :=
        { r.2.world with
            leads := r.2.world.leads.map (fun l =>
              if l.row_number == row then { ld with row_number := l.row_number }
              else l) } })

/-- `LeadClient.update_lead_by_row`: re-reads the sheet, merges the
partial update over the current row and writes it back.  Every
exception is caught and turned into `False`; returns `True` only when
the write went through. -/
def update_lead_by_row (faults : FaultO) (s : S) (row : Nat)
    (u : LeadUpdates) : Bool × S :=
  match read_leads faults s with
  | (.error _, s1) => (false, s1)
  | (.ok leads, s1) =>
    match leads.find? (fun l => l.row_number == row) with
    | none => (false, s1)
    | some cur =>
      match update_lead faults s1 row (applyLeadUpdates cur u) with
      | (.error _, s2) => (false, s2)
      | (.ok _, s2) => (true, s2)

/-! ### `sync_logic.py` : the reconciliation engine -/

/-- Ghost per-record outcome of `_process_lead_to_task` (Flow A).
`raised` stands for an exception escaping the per-record body (caught
by the loop); `createdNoId` / `replacedNoId` are the branches where
card creation returned a falsy id. -/
inductive RecA where
  | skippedEmpty
  | created (cid : String) (wrote : Bool)
  | createdNoId
  | updated
  | noChange
  | replaced (cid : String) (wrote : Bool)
  | replacedNoId
  | raised
deriving DecidableEq

/-- `SyncEngine._process_lead_to_task` (`sync_logic.py` lines
138-237). -/
def processLeadToTask (cfg : TrelloCfg) (faults : FaultO) (s : S)
    (lead : Lead) : RecA × S :=
  let lead_id := pyStrip lead.id
  let name := pyStrip lead.name
  let email := pyStrip lead.email
  let source := pyStrip lead.source
  let status := normalize_status lead.status
  let task_ref := pyStrip lead.trello_task_id
  let row := lead.row_number
  if name = "" then (.skippedEmpty, bumpSkipped s)
  else if task_ref = "" then
    match create_task_for_lead cfg faults s lead with
    | (.error _, s1) => (.raised, s1)
    | (.ok none, s1) => (.createdNoId, bumpErrors s1)
    | (.ok (some cid), s1) =>
      let r := update_lead_by_row faults s1 row { trello_task_id := some cid }
      (.created cid r.1, bumpTasksCreated r.2)
  else
    match get_card faults s task_ref with
    | (.error _, s1) => (.raised, s1)
    | (.ok (some card), s1) =>
      let expected_desc := format_card_description email source lead_id
      let card_status := get_status_from_list_id cfg card.idList
      let uName : Option String := if card.name ≠ name then some name else none
      let uDesc : Option String :=
        if card.desc ≠ expected_desc then some expected_desc else none
      let uStat : Option String := if card_status ≠ status then some status else none
      if uName.isSome || uDesc.isSome || uStat.isSome then
        match update_card cfg faults s1 task_ref ⟨uName, uDesc, uStat⟩ with
        | (.error _, s2) => (.raised, s2)
        | (.ok _, s2) => (.updated, bumpTasksUpdated s2)
      else (.noChange, s1)
    | (.ok none, s1) =>
      match create_task_for_lead cfg faults s1 lead with
      | (.error _, s2) => (.raised, s2)
      | (.ok none, s2) => (.replacedNoId, s2)
      | (.ok (some cid), s2) =>
        let r := update_lead_by_row faults s2 row { trello_task_id := some cid }
        (.replaced cid r.1, bumpTasksCreated r.2)

/-- The per-lead loop of `_sync_leads_to_tasks`: each record is
processed under its own `try`; an escaping exception increments the
error counter and the loop continues with the next record. -/
def flowALoop (cfg : TrelloCfg) (faults : FaultO) :
    S → List Lead → List RecA × S
  | s, [] => ([], s)
  | s, l :: rest =>
    let r := processLeadToTask cfg faults s l
    let s2 := if r.1 = .raised then bumpErrors r.2 else r.2
    let rs := flowALoop cfg faults s2 rest
    (r.1 :: rs.1, rs.2)

/-- `SyncEngine._sync_leads_to_tasks` (Flow A, record→task): fetch all
leads fresh, return early when the sheet is empty, else run the
per-record loop.  A fetch failure is logged and re-raised.  The fetched
list and the per-record outcomes are returned as ghost data. -/
def syncLeadsToTasks (cfg : TrelloCfg) (faults : FaultO) (s : S) :
    Except Unit (List Lead × List RecA) × S :=
  match read_leads faults s with
  | (.error _, s1) => (.error (), s1)
  | (.ok leads, s1) =>
    if leads.isEmpty then (.ok (leads, []), s1)
    else
      let rs := flowALoop cfg faults s1 leads
      (.ok (leads, rs.1), rs.2)

/-- The `lead_map` of `_sync_tasks_to_leads`: a dict keyed by
non-empty trimmed `trello_task_id`; a later row overwrites an earlier
one, so lookup finds the last matching row. -/
def leadMapFind (leads : List Lead) (card_id : String) : Option Lead :=
  leads.reverse.find? (fun l =>
    (pyStrip l.trello_task_id != "") && (pyStrip l.trello_task_id == card_id))

/-- Ghost per-card outcome of `_process_task_to_lead` (Flow B). -/
inductive RecB where
  | notLinked
  | synced (row : Nat) (wrote : Bool)
  | inSync
deriving DecidableEq

/-- `SyncEngine._process_task_to_lead` (`sync_logic.py` lines
299-343). -/
def processTaskToLead (cfg : TrelloCfg) (faults : FaultO) (s : S)
    (card : Card) (leads : List Lead) : RecB × S :=
  match leadMapFind leads card.id with
  | none => (.notLinked, bumpSkipped s)
  | some lead =>
    let card_status := get_status_from_list_id cfg card.idList
    let sheet_status := normalize_status lead.status
    if card_status ≠ sheet_status then
      let r := update_lead_by_row faults s lead.row_number
                 { status := some (pyUpper card_status) }
      (.synced lead.row_number r.1, bumpSynced r.2)
    else (.inSync, s)

/-- The per-card loop of `_sync_tasks_to_leads` (per-card error
isolation; in this model per-card processing never raises). -/
def flowBLoop (cfg : TrelloCfg) (faults : FaultO) (leads : List Lead) :
    S → List Card → List RecB × S
  | s, [] => ([], s)
  | s, c :: rest =>
    let r := processTaskToLead cfg faults s c leads
    let rs := flowBLoop cfg faults leads r.2 rest
    (r.1 :: rs.1, rs.2)

/-- `SyncEngine._sync_tasks_to_leads` (Flow B, task→record): fetch all
cards, return early when the board is empty, fetch all leads, build the
lookup map and run the per-card loop.  A fetch failure is re-raised. -/
def syncTasksToLeads (cfg : TrelloCfg) (faults : FaultO) (s : S) :
    Except Unit (List Card × List RecB) × S :=
  match get_all_cards faults s with
  | (.error _, s1) => (.error (), s1)
  | (.ok cards, s1) =>
    if cards.isEmpty then (.ok (cards, []), s1)
    else
      match read_leads faults s1 with
      | (.error _, s2) => (.error (), s2)
      | (.ok leads, s2) =>
        let rs := flowBLoop cfg faults leads s2 cards
        (.ok (cards, rs.1), rs.2)

/-- The statistics reset at the top of `run_sync`. -/
def resetStats (s : S) : S := { s with stats := Stats.zero }

/-- `SyncEngine.run_sync` (`sync_logic.py` lines 28-76): reset the
statistics, run Flow B (task→lead) first, then Flow A (lead→task),
inside one `try`; an exception escaping a flow is caught at run level
and bumps the error counter once; the statistics are always
returned. -/
def run_sync (cfg : TrelloCfg) (faults : FaultO) (s : S) : Stats × S :=
  let s0 := resetStats s
  match syncTasksToLeads cfg faults s0 with
  | (.error _, s1) =>
    let s2 := bumpErrors s1
    (s2.stats, s2)
  | (.ok _, s1) =>
    match syncLeadsToTasks cfg faults s1 with
    | (.error _, s2) =>
      let s3 := bumpErrors s2
      (s3.stats, s3)
    | (.ok _, s2) => (s2.stats, s2)

/-! ### Trace counting helpers -/

/-- Number of card-creation calls in a trace segment. -/
def countCreates (tr : List Event) : Nat :=
  (tr.filter (fun e => match e with | .createCard _ => true | _ => false)).length

/-- Number of card-update calls in a trace segment. -/
def countCardUpdates (tr : List Event) : Nat :=
  (tr.filter (fun e => match e with | .updateCard _ => true | _ => false)).length

/-- Number of sheet-row writes in a trace segment. -/
def countLeadWrites (tr : List Event) : Nat :=
  (tr.filter (fun e => match e with | .writeLead _ => true | _ => false)).length

/-- Number of `raised` outcomes in a Flow A outcome list. -/
def countRaisedA (rs : List RecA) : Nat :=
  (rs.filter (fun r => r = .raised)).length

/-- Number of `createdNoId` outcomes in a Flow A outcome list. -/
def countNoIdA (rs : List RecA) : Nat :=
  (rs.filter (fun r => r = .createdNoId)).length

instance {e a : Type} [DecidableEq e] [DecidableEq a] :
    DecidableEq (Except e a) := fun x y =>
  match x, y with
  | .error u, .error v =>
    if h : u = v then .isTrue (by rw [h]) else .isFalse (by simp [h])
  | .error _, .ok _ => .isFalse (by simp)
  | .ok _, .error _ => .isFalse (by simp)
  | .ok u, .ok v =>
    if h : u = v then .isTrue (by rw [h]) else .isFalse (by simp [h])

/-! ### Concrete fixtures and oracles used by the claim witnesses -/

/-- A transient failure on the first attempt, success on the second. -/
def transientOp : Nat → CallResult :=
  fun n => if n = 0 then .failure (some 500) else .success

/-- The card minted by a successful `create_task_for_lead`. -/
def mintedCard (cfg : TrelloCfg) (w : World) (lead : Lead) : Card :=
  ⟨cfg.genId w.nextCardId, lead.name,
   format_card_description lead.email lead.source lead.id,
   ((listIds cfg).lookup (pyLower (normalize_status lead.status))).getD cfg.todo⟩

/-- A concrete board configuration with four distinct list ids. -/
def cfg0 : TrelloCfg := ⟨"L1", "L2", "L3", "L4", fun n => "c" ++ toString n⟩

/-- The all-success fault oracle. -/
def faultsOk : FaultO := fun _ => .ok

/-- A lead row with an empty `trello_task_id` (unlinked). -/
def lead0 : Lead := ⟨2, "L001", "John Doe", "j@x.com", "NEW", "web", ""⟩

/-- A one-row sheet holding `lead0`, an empty board. -/
def s0 : S := ⟨⟨[lead0], [], 0⟩, Stats.zero, [], 0⟩

/-- A lead row whose `trello_task_id` points to a card that is not on
the board. -/
def lead5 : Lead := ⟨2, "L001", "John Doe", "j@x.com", "NEW", "web", "zz"⟩

/-- A one-row sheet holding `lead5`, an empty board. -/
def s5 : S := ⟨⟨[lead5], [], 0⟩, Stats.zero, [], 0⟩

/-- Oracle: the second network call (the replacement creation after the
card lookup) answers with a falsy body. -/
def faults5 : FaultO := fun n => if n = 1 then .falsy else .ok

/-- Oracle: the first network call (the creation for an unlinked lead)
answers with a falsy body. -/
def faults5e : FaultO := fun n => if n = 0 then .falsy else .ok

/-- Oracle for a whole run over `s0`: board read ok, sheet read ok,
then the creation (third call) answers with a falsy body. -/
def faults9 : FaultO := fun n => if n = 2 then .falsy else .ok

/-- A lead row linked to card `c9`, stored status `new`. -/
def lead4 : Lead := ⟨2, "L001", "John Doe", "j@x.com", "new", "web", "c9"⟩

/-- Card `c9` in the TODO list (canonical status `new`, matching the
record) but with a diverged title. -/
def card4 : Card :=
  ⟨"c9", "Old Name",
   "lead_id: L001\n🆔 Lead ID: L001\n📧 Email: j@x.com\n📍 Source: web",
   "L1"⟩

/-- Sheet `[lead4]`, board `[card4]`. -/
def s4 : S := ⟨⟨[lead4], [card4], 0⟩, Stats.zero, [], 0⟩

/-- Oracle: the creation succeeds, the write-back's internal re-read
(second call) raises, everything later succeeds. -/
def faultsWB : FaultO := fun n => if n = 1 then .exn else .ok

/-- Lead linked to card `c9` but stored status diverges from the card's
list-derived status. -/
def lead4b : Lead := ⟨2, "L001", "John Doe", "j@x.com", "new", "web", "c9"⟩

/-- Card `c9` in the DONE list (canonical status `qualified`). -/
def card4b : Card := ⟨"c9", "John Doe", "d", "L3"⟩

/-- Sheet `[lead4b]`, board `[card4b]`. -/
def s4b : S := ⟨⟨[lead4b], [card4b], 0⟩, Stats.zero, [], 0⟩

/-- Oracle that raises on every call. -/
def faultsExn : FaultO := fun _ => .exn


/-! ### Helper lemmas : the status normalizer -/

/-- Every value of the synonym table is canonical. -/
lemma statusMap_values_canonical : ∀ p ∈ statusMap, isCanonical p.2 := by
  decide

/-- A successful association-list lookup returns a stored pair. -/
lemma lookup_mem_pair (m : List (String × String)) (k v : String)
    (h : m.lookup k = some v) : (k, v) ∈ m := by
  induction m with
  | nil => simp [List.lookup] at h
  | cons p t ih =>
    obtain ⟨a, b⟩ := p
    by_cases hk : k = a
    · subst hk
      simp [List.lookup] at h
      simp [h]
    · have hne : (k == a) = false := beq_false_of_ne hk
      simp [List.lookup, hne] at h
      exact List.mem_cons_of_mem _ (ih h)

/-- The normalizer only produces the four canonical statuses. -/
lemma normalize_status_canonical (s : String) :
    isCanonical (normalize_status s) := by
  unfold normalize_status
  by_cases hs : s = ""
  · simp [hs, isCanonical]
  · simp only [hs, if_false]
    cases h : statusMap.lookup (normalizeKey s) with
    | none => simp [isCanonical]
    | some v =>
      simpa using statusMap_values_canonical _ (lookup_mem_pair _ _ _ h)

/-- The normalizer fixes each of the four canonical statuses. -/
lemma normalize_status_fix :
    normalize_status "new" = "new" ∧
    normalize_status "contacted" = "contacted" ∧
    normalize_status "qualified" = "qualified" ∧
    normalize_status "lost" = "lost" := by decide

/-- C6: `normalize_status` is total (a Lean function) and idempotent;
the empty string and any string whose transformed key misses the
synonym table map to `"new"`; every output is one of the four canonical
statuses. -/
theorem normalize_status_spec :
    (∀ s, normalize_status (normalize_status s) = normalize_status s) ∧
    normalize_status "" = "new" ∧
    (∀ s, statusMap.lookup (normalizeKey s) = none →
      normalize_status s = "new") ∧
    (∀ s, isCanonical (normalize_status s)) := by
  refine ⟨?_, by decide, ?_, normalize_status_canonical⟩
  · intro s
    rcases normalize_status_canonical s with h | h | h | h <;>
      rw [h] <;> decide
  · intro s hnone
    unfold normalize_status
    by_cases hs : s = ""
    · simp [hs]
    · simp [hs, hnone]

/-- Witness for C6 at concrete inputs, discharging the missing-key
hypothesis for the string `"garbage"`. -/
theorem normalize_status_spec_witness :
    normalize_status (normalize_status "In-Progress") =
      normalize_status "In-Progress" ∧
    normalize_status "garbage" = "new" :=
  ⟨normalize_status_spec.1 "In-Progress",
   normalize_status_spec.2.2.1 "garbage" (by decide)⟩

/-! ### Helper lemmas : the retry policy -/

lemma retryGo_success (op : Nat → CallResult) (base factor attempt remaining : Nat)
    (h : op attempt = .success) :
    retryGo op base factor attempt remaining = ([], .succ attempt) := by
  simp [retryGo, h]

lemma retryGo_terminal (op : Nat → CallResult) (base factor attempt remaining : Nat)
    (c : Option Nat) (h : op attempt = .failure c) (ht : terminalCode c) :
    retryGo op base factor attempt remaining = ([], .err c) := by
  simp [retryGo, h, ht]

lemma retryGo_exhaust (op : Nat → CallResult) (base factor attempt : Nat)
    (c : Option Nat) (h : op attempt = .failure c) (hnt : ¬ terminalCode c) :
    retryGo op base factor attempt 0 = ([], .err c) := by
  simp [retryGo, h, hnt]

lemma retryGo_step (op : Nat → CallResult) (base factor attempt r : Nat)
    (c : Option Nat) (h : op attempt = .failure c) (hnt : ¬ terminalCode c) :
    retryGo op base factor attempt (r + 1) =
      (base * factor ^ attempt :: (retryGo op base factor (attempt + 1) r).1,
       (retryGo op base factor (attempt + 1) r).2) := by
  conv_lhs => rw [retryGo]
  simp [h, hnt]

/-- C7: under the default policy (3 retries, base delay 1, factor 2):
a terminal-coded failure (400/401/403) on the first attempt is re-raised
at once with no sleep; four consecutive retryable failures exhaust the
retries after sleeps of 1s, 2s, 4s and re-raise the last error; a
success on attempt k (after retryable failures) returns after the first
k sleeps; a terminal failure on a later attempt is re-raised without a
further sleep. -/
theorem retry_policy_spec :
    (∀ op c, terminalCode c → op 0 = .failure c →
       retryDefault op = ([], .err c)) ∧
    (∀ op c0 c1 c2 c3,
       op 0 = .failure c0 → op 1 = .failure c1 →
       op 2 = .failure c2 → op 3 = .failure c3 →
       ¬ terminalCode c0 → ¬ terminalCode c1 →
       ¬ terminalCode c2 → ¬ terminalCode c3 →
       retryDefault op = ([1, 2, 4], .err c3)) ∧
    (∀ op, op 0 = .success → retryDefault op = ([], .succ 0)) ∧
    (∀ op c0, op 0 = .failure c0 → ¬ terminalCode c0 → op 1 = .success →
       retryDefault op = ([1], .succ 1)) ∧
    (∀ op c0 c1, op 0 = .failure c0 → ¬ terminalCode c0 →
       op 1 = .failure c1 → ¬ terminalCode c1 → op 2 = .success →
       retryDefault op = ([1, 2], .succ 2)) ∧
    (∀ op c0 c1 c2, op 0 = .failure c0 → ¬ terminalCode c0 →
       op 1 = .failure c1 → ¬ terminalCode c1 →
       op 2 = .failure c2 → ¬ terminalCode c2 → op 3 = .success →
       retryDefault op = ([1, 2, 4], .succ 3)) ∧
    (∀ op c0 c1, op 0 = .failure c0 → ¬ terminalCode c0 →
       op 1 = .failure c1 → terminalCode c1 →
       retryDefault op = ([1], .err c1)) := by
  refine ⟨?_, ?_, ?_, ?_, ?_, ?_, ?_⟩
  · intro op c ht h0
    unfold retryDefault retry_with_backoff
    rw [retryGo_terminal op 1 2 0 3 c h0 ht]
  · intro op c0 c1 c2 c3 h0 h1 h2 h3 n0 n1 n2 n3
    unfold retryDefault retry_with_backoff
    rw [retryGo_step op 1 2 0 2 c0 h0 n0,
        retryGo_step op 1 2 1 1 c1 h1 n1,
        retryGo_step op 1 2 2 0 c2 h2 n2,
        retryGo_exhaust op 1 2 3 c3 h3 n3]
    norm_num
  · intro op h0
    unfold retryDefault retry_with_backoff
    rw [retryGo_success op 1 2 0 3 h0]
  · intro op c0 h0 n0 h1
    unfold retryDefault retry_with_backoff
    rw [retryGo_step op 1 2 0 2 c0 h0 n0,
        retryGo_success op 1 2 1 2 h1]
    norm_num
  · intro op c0 c1 h0 n0 h1 n1 h2
    unfold retryDefault retry_with_backoff
    rw [retryGo_step op 1 2 0 2 c0 h0 n0,
        retryGo_step op 1 2 1 1 c1 h1 n1,
        retryGo_success op 1 2 2 1 h2]
    norm_num
  · intro op c0 c1 c2 h0 n0 h1 n1 h2 n2 h3
    unfold retryDefault retry_with_backoff
    rw [retryGo_step op 1 2 0 2 c0 h0 n0,
        retryGo_step op 1 2 1 1 c1 h1 n1,
        retryGo_step op 1 2 2 0 c2 h2 n2,
        retryGo_success op 1 2 3 0 h3]
    norm_num
  · intro op c0 c1 h0 n0 h1 t1
    unfold retryDefault retry_with_backoff
    rw [retryGo_step op 1 2 0 2 c0 h0 n0,
        retryGo_terminal op 1 2 1 2 c1 h1 t1]
    norm_num

/-- Witness for C7: a 400 is re-raised at once; a transient 500
followed by a success is retried after a single 1s sleep. -/
theorem retry_policy_spec_witness :
    retryDefault (fun _ => .failure (some 400)) = ([], .err (some 400)) ∧
    retryDefault transientOp = ([1], .succ 1) :=
  ⟨retry_policy_spec.1 (fun _ => .failure (some 400)) (some 400)
     (by decide) rfl,
   retry_policy_spec.2.2.2.1 transientOp (some 500) (by decide) (by decide)
     (by decide)⟩

/-- C8 counterexample: `TaskClient.delete_card` carries no
`@retry_with_backoff` decorator.  On a transient failure (HTTP 500 on
the first attempt, success available on the second) it performs no
retry and surfaces no error: it swallows the exception and returns
`False`, while the retry policy applied to the very same operation
would have succeeded after one 1s backoff sleep. -/
theorem delete_card_unwrapped_counterexample :
    delete_card transientOp = false ∧
    retryDefault transientOp = ([1], .succ 1) := by decide

/-- C8 amended: every network-facing read, write and create operation
of the two clients (`create_card`, `get_card`, `update_card`,
`get_all_cards`, `read_leads`, `update_lead`, `append_lead`) is wrapped
by the retry policy and retries a transient failure, but the delete
operation `TaskClient.delete_card` is not wrapped: it makes a single
attempt and returns `False` on any failure. -/
theorem retry_wrapping_amended :
    (∀ op c0, op 0 = .failure c0 → ¬ terminalCode c0 → op 1 = .success →
       create_card_net op = ([1], .succ 1) ∧
       get_card_net op = ([1], .succ 1) ∧
       update_card_net op = ([1], .succ 1) ∧
       get_all_cards_net op = ([1], .succ 1) ∧
       read_leads_net op = ([1], .succ 1) ∧
       update_lead_net op = ([1], .succ 1) ∧
       append_lead_net op = ([1], .succ 1)) ∧
    (∀ op c0, op 0 = .failure c0 → op 1 = .success →
       delete_card op = false) := by
  constructor
  · intro op c0 h0 n0 h1
    have hr : retryDefault op = ([1], .succ 1) := by
      unfold retryDefault retry_with_backoff
      rw [retryGo_step op 1 2 0 2 c0 h0 n0, retryGo_success op 1 2 1 2 h1]
      norm_num
    exact ⟨hr, hr, hr, hr, hr, hr, hr⟩
  · intro op c0 h0 _
    simp [delete_card, h0]

/-- Witness for the amended C8 at the concrete transient operation. -/
theorem retry_wrapping_amended_witness :
    create_card_net transientOp = ([1], .succ 1) ∧
    delete_card transientOp = false :=
  ⟨(retry_wrapping_amended.1 transientOp (some 500) (by decide) (by decide)
      (by decide)).1,
   retry_wrapping_amended.2 transientOp (some 500) (by decide) (by decide)⟩

/-! ### Helper lemmas : exact behaviour of the client operations -/

lemma read_leads_ok (faults : FaultO) (s : S) (h : faults s.tick = .ok) :
    read_leads faults s =
      (.ok s.world.leads,
       { s with tick := s.tick + 1, trace := s.trace ++ [.readLeads] }) := by
  unfold read_leads netOp
  rw [h]

lemma read_leads_exn (faults : FaultO) (s : S) (h : faults s.tick = .exn) :
    read_leads faults s =
      (.error (),
       { s with tick := s.tick + 1, trace := s.trace ++ [.readLeads] }) := by
  unfold read_leads netOp
  rw [h]

lemma get_all_cards_ok (faults : FaultO) (s : S) (h : faults s.tick = .ok) :
    get_all_cards faults s =
      (.ok s.world.cards,
       { s with tick := s.tick + 1, trace := s.trace ++ [.readCards] }) := by
  unfold get_all_cards netOp
  rw [h]

lemma get_card_ok (faults : FaultO) (s : S) (cid : String)
    (h : faults s.tick = .ok) :
    get_card faults s cid =
      (.ok (s.world.cards.find? (fun c => c.id == cid)),
       { s with tick := s.tick + 1, trace := s.trace ++ [.getCard cid] }) := by
  unfold get_card netOp
  rw [h]

lemma create_card_ok (cfg : TrelloCfg) (faults : FaultO) (s : S)
    (n d st : String) (h : faults s.tick = .ok) :
    create_card cfg faults s n d st =
      (.ok (some ⟨cfg.genId s.world.nextCardId, n, d,
                  ((listIds cfg).lookup (pyLower st)).getD cfg.todo⟩),
       { s with
           world :=
             { s.world with
                 cards := s.world.cards ++
                   [⟨cfg.genId s.world.nextCardId, n, d,
                     ((listIds cfg).lookup (pyLower st)).getD cfg.todo⟩],
                 nextCardId := s.world.nextCardId + 1 },
           tick := s.tick + 1,
           trace := s.trace ++ [.createCard n] }) := by
  unfold create_card netOp
  rw [h]

lemma create_card_falsy (cfg : TrelloCfg) (faults : FaultO) (s : S)
    (n d st : String) (h : faults s.tick = .falsy) :
    create_card cfg faults s n d st =
      (.ok none,
       { s with tick := s.tick + 1, trace := s.trace ++ [.createCard n] }) := by
  unfold create_card netOp
  rw [h]

lemma create_card_exn (cfg : TrelloCfg) (faults : FaultO) (s : S)
    (n d st : String) (h : faults s.tick = .exn) :
    create_card cfg faults s n d st =
      (.error (),
       { s with tick := s.tick + 1, trace := s.trace ++ [.createCard n] }) := by
  unfold create_card netOp
  rw [h]

lemma create_task_ok (cfg : TrelloCfg) (faults : FaultO) (s : S)
    (lead : Lead) (h : faults s.tick = .ok) :
    create_task_for_lead cfg faults s lead =
      (.ok (some (cfg.genId s.world.nextCardId)),
       { s with
           world :=
             { s.world with
                 cards := s.world.cards ++ [mintedCard cfg s.world lead],
                 nextCardId := s.world.nextCardId + 1 },
           tick := s.tick + 1,
           trace := s.trace ++ [.createCard lead.name] }) := by
  unfold create_task_for_lead
  dsimp only
  rw [create_card_ok cfg faults s lead.name
        (format_card_description lead.email lead.source lead.id)
        (normalize_status lead.status) h]
  rfl

lemma create_task_falsy (cfg : TrelloCfg) (faults : FaultO) (s : S)
    (lead : Lead) (h : faults s.tick = .falsy) :
    create_task_for_lead cfg faults s lead =
      (.ok none,
       { s with tick := s.tick + 1,
                trace := s.trace ++ [.createCard lead.name] }) := by
  unfold create_task_for_lead
  dsimp only
  rw [create_card_falsy cfg faults s lead.name
        (format_card_description lead.email lead.source lead.id)
        (normalize_status lead.status) h]

lemma create_task_exn (cfg : TrelloCfg) (faults : FaultO) (s : S)
    (lead : Lead) (h : faults s.tick = .exn) :
    create_task_for_lead cfg faults s lead =
      (.error (),
       { s with tick := s.tick + 1,
                trace := s.trace ++ [.createCard lead.name] }) := by
  unfold create_task_for_lead
  dsimp only
  rw [create_card_exn cfg faults s lead.name
        (format_card_description lead.email lead.source lead.id)
        (normalize_status lead.status) h]

lemma update_lead_ok (faults : FaultO) (s : S) (row : Nat) (ld : Lead)
    (h : faults s.tick = .ok) :
    update_lead faults s row ld =
      (.ok (),
       { s with
           world :=
             { s.world with
                 leads := s.world.leads.map (fun l =>
                   if l.row_number == row then
                     { ld with row_number := l.row_number }
                   else l) },
           tick := s.tick + 1,
           trace := s.trace ++ [.writeLead row] }) := by
  unfold update_lead netOp
  rw [h]

lemma update_lead_by_row_ok (faults : FaultO) (s : S) (row : Nat)
    (u : LeadUpdates) (cur : Lead)
    (h1 : faults s.tick = .ok) (h2 : faults (s.tick + 1) = .ok)
    (hfind : s.world.leads.find? (fun l => l.row_number == row) = some cur) :
    update_lead_by_row faults s row u =
      (true,
       { s with
           world :=
             { s.world with
                 leads := s.world.leads.map (fun l =>
                   if l.row_number == row then
                     { applyLeadUpdates cur u with row_number := l.row_number }
                   else l) },
           tick := s.tick + 2,
           trace := s.trace ++ [.readLeads, .writeLead row] }) := by
  unfold update_lead_by_row
  rw [read_leads_ok faults s h1]
  simp only [hfind]
  rw [update_lead_ok faults _ row (applyLeadUpdates cur u) (by simpa using h2)]
  simp [List.append_assoc]

lemma update_lead_by_row_read_exn (faults : FaultO) (s : S) (row : Nat)
    (u : LeadUpdates) (h : faults s.tick = .exn) :
    update_lead_by_row faults s row u =
      (false,
       { s with tick := s.tick + 1, trace := s.trace ++ [.readLeads] }) := by
  unfold update_lead_by_row
  rw [read_leads_exn faults s h]

lemma update_lead_exn (faults : FaultO) (s : S) (row : Nat) (ld : Lead)
    (h : faults s.tick = .exn) :
    update_lead faults s row ld =
      (.error (),
       { s with tick := s.tick + 1, trace := s.trace ++ [.writeLead row] }) := by
  unfold update_lead netOp
  rw [h]

lemma update_lead_by_row_write_exn (faults : FaultO) (s : S) (row : Nat)
    (u : LeadUpdates) (cur : Lead)
    (h1 : faults s.tick = .ok) (h2 : faults (s.tick + 1) = .exn)
    (hfind : s.world.leads.find? (fun l => l.row_number == row) = some cur) :
    update_lead_by_row faults s row u =
      (false,
       { s with tick := s.tick + 2,
                trace := s.trace ++ [.readLeads, .writeLead row] }) := by
  unfold update_lead_by_row
  rw [read_leads_ok faults s h1]
  simp only [hfind]
  rw [update_lead_exn faults _ row _ (by simpa using h2)]
  simp [List.append_assoc]

lemma update_card_ok (cfg : TrelloCfg) (faults : FaultO) (s : S)
    (cid : String) (u : CardUpdates) (h : faults s.tick = .ok) :
    update_card cfg faults s cid u =
      (.ok (),
       { s with
           world :=
             { s.world with
                 cards := s.world.cards.map (fun c =>
                   if c.id == cid then
                     { c with
                         name := u.name.getD c.name,
                         desc := u.description.getD c.desc,
                         idList :=
                           match u.status with
                           | none => c.idList
                           | some st =>
                             match (listIds cfg).lookup (pyLower st) with
                             | some lid => lid
                             | none => c.idList }
                   else c) },
           tick := s.tick + 1,
           trace := s.trace ++ [.updateCard cid] }) := by
  unfold update_card netOp
  rw [h]

/-! ### Helper lemmas : client operations never touch the statistics -/

lemma read_leads_stats (faults : FaultO) (s : S) :
    (read_leads faults s).2.stats = s.stats := by
  unfold read_leads netOp
  dsimp only
  cases faults s.tick <;> rfl

lemma get_card_stats (faults : FaultO) (s : S) (cid : String) :
    (get_card faults s cid).2.stats = s.stats := by
  unfold get_card netOp
  dsimp only
  cases faults s.tick <;> rfl

lemma create_card_stats (cfg : TrelloCfg) (faults : FaultO) (s : S)
    (n d st : String) : (create_card cfg faults s n d st).2.stats = s.stats := by
  unfold create_card netOp
  dsimp only
  cases faults s.tick <;> rfl

lemma update_card_stats (cfg : TrelloCfg) (faults : FaultO) (s : S)
    (cid : String) (u : CardUpdates) :
    (update_card cfg faults s cid u).2.stats = s.stats := by
  unfold update_card netOp
  dsimp only
  cases faults s.tick <;> rfl

lemma update_lead_stats (faults : FaultO) (s : S) (row : Nat) (ld : Lead) :
    (update_lead faults s row ld).2.stats = s.stats := by
  unfold update_lead netOp
  dsimp only
  cases faults s.tick <;> rfl

lemma create_task_stats (cfg : TrelloCfg) (faults : FaultO) (s : S)
    (lead : Lead) : (create_task_for_lead cfg faults s lead).2.stats = s.stats := by
  unfold create_task_for_lead
  dsimp only
  rcases h : create_card cfg faults s lead.name
    (format_card_description lead.email lead.source lead.id)
    (normalize_status lead.status) with ⟨r, s1⟩
  have hs1 : s1.stats = s.stats := by
    have h2 := create_card_stats cfg faults s lead.name
      (format_card_description lead.email lead.source lead.id)
      (normalize_status lead.status)
    rw [h] at h2
    exact h2
  rcases r with e | o
  · exact hs1
  · rcases o with _ | c <;> exact hs1

lemma update_lead_by_row_stats (faults : FaultO) (s : S) (row : Nat)
    (u : LeadUpdates) : (update_lead_by_row faults s row u).2.stats = s.stats := by
  unfold update_lead_by_row
  rcases h : read_leads faults s with ⟨r, s1⟩
  have hs1 : s1.stats = s.stats := by
    have h2 := read_leads_stats faults s
    rw [h] at h2
    exact h2
  rcases r with e | leads
  · exact hs1
  · dsimp only
    cases hf : leads.find? (fun l => l.row_number == row) with
    | none => simp only [hf]; exact hs1
    | some cur =>
      simp only [hf]
      rcases h2 : update_lead faults s1 row (applyLeadUpdates cur u) with ⟨r2, s2⟩
      have hs2 : s2.stats = s1.stats := by
        have h3 := update_lead_stats faults s1 row (applyLeadUpdates cur u)
        rw [h2] at h3
        exact h3
      rcases r2 with e | u2 <;> exact hs2.trans hs1

lemma processLead_errors_delta (cfg : TrelloCfg) (faults : FaultO) (s : S)
    (lead : Lead) :
    (processLeadToTask cfg faults s lead).2.stats.errors =
      s.stats.errors +
        (if (processLeadToTask cfg faults s lead).1 = RecA.createdNoId then 1
         else 0) := by
  unfold processLeadToTask
  dsimp only
  by_cases hname : pyStrip lead.name = ""
  · simp [hname, bumpSkipped]
  rw [if_neg hname]
  by_cases href : pyStrip lead.trello_task_id = ""
  · rw [if_pos href]
    rcases h1 : create_task_for_lead cfg faults s lead with ⟨r1, s1⟩
    have hs1 : s1.stats = s.stats := by
      have h2 := create_task_stats cfg faults s lead
      rw [h1] at h2
      exact h2
    rcases r1 with e | o
    · simp [hs1]
    · rcases o with _ | cid
      · simp [bumpErrors, hs1]
      · dsimp only
        rcases h2 : update_lead_by_row faults s1 lead.row_number
          { trello_task_id := some cid } with ⟨b, s2⟩
        have hs2 : s2.stats = s1.stats := by
          have h3 := update_lead_by_row_stats faults s1 lead.row_number
            { trello_task_id := some cid }
          rw [h2] at h3
          exact h3
        simp [bumpTasksCreated, hs2, hs1]
  · rw [if_neg href]
    rcases h1 : get_card faults s (pyStrip lead.trello_task_id) with ⟨r1, s1⟩
    have hs1 : s1.stats = s.stats := by
      have h2 := get_card_stats faults s (pyStrip lead.trello_task_id)
      rw [h1] at h2
      exact h2
    rcases r1 with e | o
    · simp [hs1]
    · rcases o with _ | card
      · dsimp only
        rcases h2 : create_task_for_lead cfg faults s1 lead with ⟨r2, s2⟩
        have hs2 : s2.stats = s1.stats := by
          have h3 := create_task_stats cfg faults s1 lead
          rw [h2] at h3
          exact h3
        rcases r2 with e | o2
        · simp [hs2, hs1]
        · rcases o2 with _ | cid
          · simp [hs2, hs1]
          · dsimp only
            rcases h3 : update_lead_by_row faults s2 lead.row_number
              { trello_task_id := some cid } with ⟨b, s3⟩
            have hs3 : s3.stats = s2.stats := by
              have h4 := update_lead_by_row_stats faults s2 lead.row_number
                { trello_task_id := some cid }
              rw [h3] at h4
              exact h4
            simp [bumpTasksCreated, hs3, hs2, hs1]
      · dsimp only
        by_cases hc :
          ((if card.name ≠ pyStrip lead.name then some (pyStrip lead.name)
            else none).isSome ||
           (if card.desc ≠ format_card_description (pyStrip lead.email)
                (pyStrip lead.source) (pyStrip lead.id) then
              some (format_card_description (pyStrip lead.email)
                (pyStrip lead.source) (pyStrip lead.id))
            else none).isSome ||
           (if get_status_from_list_id cfg card.idList ≠
                normalize_status lead.status
            then some (normalize_status lead.status)
            else none).isSome) = true
        · rw [if_pos hc]
          rcases h2 : update_card cfg faults s1 (pyStrip lead.trello_task_id)
            ⟨if card.name ≠ pyStrip lead.name then some (pyStrip lead.name)
              else none,
             if card.desc ≠ format_card_description (pyStrip lead.email)
                  (pyStrip lead.source) (pyStrip lead.id) then
               some (format_card_description (pyStrip lead.email)
                 (pyStrip lead.source) (pyStrip lead.id))
             else none,
             if get_status_from_list_id cfg card.idList ≠
                  normalize_status lead.status
             then some (normalize_status lead.status)
             else none⟩ with ⟨r2, s2⟩
          have hs2 : s2.stats = s1.stats := by
            have h3 := update_card_stats cfg faults s1
              (pyStrip lead.trello_task_id)
              ⟨if card.name ≠ pyStrip lead.name then some (pyStrip lead.name)
                else none,
               if card.desc ≠ format_card_description (pyStrip lead.email)
                    (pyStrip lead.source) (pyStrip lead.id) then
                 some (format_card_description (pyStrip lead.email)
                   (pyStrip lead.source) (pyStrip lead.id))
               else none,
               if get_status_from_list_id cfg card.idList ≠
                    normalize_status lead.status
               then some (normalize_status lead.status)
               else none⟩
            rw [h2] at h3
            exact h3
          rcases r2 with e | u2 <;> simp [bumpTasksUpdated, hs2, hs1]
        · rw [if_neg hc]
          simp [hs1]

lemma processTask_errors_delta (cfg : TrelloCfg) (faults : FaultO) (s : S)
    (card : Card) (leads : List Lead) :
    (processTaskToLead cfg faults s card leads).2.stats.errors =
      s.stats.errors := by
  unfold processTaskToLead
  cases hm : leadMapFind leads card.id with
  | none => simp [bumpSkipped]
  | some lead =>
    dsimp only
    split
    · dsimp only
      rcases h1 : update_lead_by_row faults s lead.row_number
        { status := some (pyUpper (get_status_from_list_id cfg card.idList)) }
        with ⟨b, s1⟩
      have hs1 : s1.stats = s.stats := by
        have h2 := update_lead_by_row_stats faults s lead.row_number
          { status := some (pyUpper (get_status_from_list_id cfg card.idList)) }
        rw [h1] at h2
        exact h2
      simp [bumpSynced, hs1]
    · rfl

/-! ### Helper lemmas : the per-record loops -/

lemma bumpErrors_errors (s : S) :
    (bumpErrors s).stats.errors = s.stats.errors + 1 := rfl

lemma flowALoop_spec (cfg : TrelloCfg) (faults : FaultO) (leads : List Lead) :
    ∀ s : S,
      (flowALoop cfg faults s leads).1.length = leads.length ∧
      (flowALoop cfg faults s leads).2.stats.errors =
        s.stats.errors + countRaisedA (flowALoop cfg faults s leads).1 +
          countNoIdA (flowALoop cfg faults s leads).1 := by
  induction leads with
  | nil => intro s; simp [flowALoop, countRaisedA, countNoIdA]
  | cons l rest ih =>
    intro s
    have hdelta := processLead_errors_delta cfg faults s l
    rcases hr : processLeadToTask cfg faults s l with ⟨r1, s1⟩
    rw [hr] at hdelta
    simp only [flowALoop, hr]
    by_cases hraised : r1 = RecA.raised
    · rw [if_pos hraised]
      rcases ih (bumpErrors s1) with ⟨ihlen, iherr⟩
      subst hraised
      refine ⟨by simpa using ihlen, ?_⟩
      rw [bumpErrors_errors] at iherr
      simp at hdelta
      simp only [countRaisedA, countNoIdA, List.filter_cons] at iherr ⊢
      simp only [iherr, hdelta]
      simp
      omega
    · rw [if_neg hraised]
      rcases ih s1 with ⟨ihlen, iherr⟩
      refine ⟨by simpa using ihlen, ?_⟩
      by_cases hnoid : r1 = RecA.createdNoId
      · subst hnoid
        simp at hdelta
        simp only [countRaisedA, countNoIdA, List.filter_cons] at iherr ⊢
        simp only [iherr, hdelta]
        simp [hraised]
        omega
      · simp [hnoid] at hdelta
        simp only [countRaisedA, countNoIdA, List.filter_cons] at iherr ⊢
        simp only [iherr, hdelta]
        simp [hraised, hnoid]

lemma flowBLoop_spec (cfg : TrelloCfg) (faults : FaultO) (leads : List Lead)
    (cards : List Card) :
    ∀ s : S,
      (flowBLoop cfg faults leads s cards).1.length = cards.length ∧
      (flowBLoop cfg faults leads s cards).2.stats.errors =
        s.stats.errors := by
  induction cards with
  | nil => intro s; simp [flowBLoop]
  | cons c rest ih =>
    intro s
    have hdelta := processTask_errors_delta cfg faults s c leads
    rcases hr : processTaskToLead cfg faults s c leads with ⟨r1, s1⟩
    rw [hr] at hdelta
    simp at hdelta
    simp only [flowBLoop, hr]
    rcases ih s1 with ⟨ihlen, iherr⟩
    exact ⟨by simpa using ihlen, by rw [iherr, hdelta]⟩

/-! ### Helper lemmas : per-record scenarios of `_process_lead_to_task` -/

/-- Empty `task_ref`, successful creation and successful write-back. -/
lemma processLead_create_ok (cfg : TrelloCfg) (faults : FaultO) (s : S)
    (lead cur : Lead)
    (hname : ¬ pyStrip lead.name = "")
    (href : pyStrip lead.trello_task_id = "")
    (h0 : faults s.tick = .ok) (h1 : faults (s.tick + 1) = .ok)
    (h2 : faults (s.tick + 2) = .ok)
    (hfind : s.world.leads.find? (fun l => l.row_number == lead.row_number) =
      some cur) :
    processLeadToTask cfg faults s lead =
      (.created (cfg.genId s.world.nextCardId) true,
       { world :=
           { leads := s.world.leads.map (fun l =>
               if l.row_number == lead.row_number then
                 { applyLeadUpdates cur
                     { trello_task_id := some (cfg.genId s.world.nextCardId) }
                   with row_number := l.row_number }
               else l),
             cards := s.world.cards ++ [mintedCard cfg s.world lead],
             nextCardId := s.world.nextCardId + 1 },
         stats := { s.stats with tasks_created := s.stats.tasks_created + 1 },
         trace := s.trace ++
           [.createCard lead.name, .readLeads, .writeLead lead.row_number],
         tick := s.tick + 3 }) := by
  unfold processLeadToTask
  dsimp only
  rw [if_neg hname, if_pos href, create_task_ok cfg faults s lead h0]
  dsimp only
  rw [update_lead_by_row_ok faults _ lead.row_number _ cur ?ha ?hb ?hc]
  case ha => simpa using h1
  case hb => simpa using h2
  case hc => simpa using hfind
  simp [bumpTasksCreated, List.append_assoc]

/-- Empty `task_ref`, creation answers with a falsy body: the error
counter is bumped (`sync_logic.py` line 186). -/
lemma processLead_create_falsy (cfg : TrelloCfg) (faults : FaultO) (s : S)
    (lead : Lead)
    (hname : ¬ pyStrip lead.name = "")
    (href : pyStrip lead.trello_task_id = "")
    (h0 : faults s.tick = .falsy) :
    processLeadToTask cfg faults s lead =
      (.createdNoId,
       { s with
           stats := { s.stats with errors := s.stats.errors + 1 },
           tick := s.tick + 1,
           trace := s.trace ++ [.createCard lead.name] }) := by
  unfold processLeadToTask
  dsimp only
  rw [if_neg hname, if_pos href, create_task_falsy cfg faults s lead h0]
  simp [bumpErrors]

/-- Empty `task_ref`, successful creation, but the write-back fails
(the re-read inside `update_lead_by_row` raises): the failure is
swallowed, the created-counter is still bumped, no error is counted
and the sheet keeps the empty `task_ref`. -/
lemma processLead_create_writeback_exn (cfg : TrelloCfg) (faults : FaultO)
    (s : S) (lead : Lead)
    (hname : ¬ pyStrip lead.name = "")
    (href : pyStrip lead.trello_task_id = "")
    (h0 : faults s.tick = .ok) (h1 : faults (s.tick + 1) = .exn) :
    processLeadToTask cfg faults s lead =
      (.created (cfg.genId s.world.nextCardId) false,
       { world :=
           { leads := s.world.leads,
             cards := s.world.cards ++ [mintedCard cfg s.world lead],
             nextCardId := s.world.nextCardId + 1 },
         stats := { s.stats with tasks_created := s.stats.tasks_created + 1 },
         trace := s.trace ++ [.createCard lead.name, .readLeads],
         tick := s.tick + 2 }) := by
  unfold processLeadToTask
  dsimp only
  rw [if_neg hname, if_pos href, create_task_ok cfg faults s lead h0]
  dsimp only
  rw [update_lead_by_row_read_exn faults _ lead.row_number _ (by simpa using h1)]
  simp [bumpTasksCreated, List.append_assoc]

/-- Non-empty `task_ref` whose card is gone from the board: a
replacement is created and the `task_ref` overwritten, counted as a
creation. -/
lemma processLead_notfound_ok (cfg : TrelloCfg) (faults : FaultO) (s : S)
    (lead cur : Lead)
    (hname : ¬ pyStrip lead.name = "")
    (hrefne : ¬ pyStrip lead.trello_task_id = "")
    (hnone : s.world.cards.find?
      (fun c => c.id == pyStrip lead.trello_task_id) = none)
    (h0 : faults s.tick = .ok) (h1 : faults (s.tick + 1) = .ok)
    (h2 : faults (s.tick + 2) = .ok) (h3 : faults (s.tick + 3) = .ok)
    (hfind : s.world.leads.find? (fun l => l.row_number == lead.row_number) =
      some cur) :
    processLeadToTask cfg faults s lead =
      (.replaced (cfg.genId s.world.nextCardId) true,
       { world :=
           { leads := s.world.leads.map (fun l =>
               if l.row_number == lead.row_number then
                 { applyLeadUpdates cur
                     { trello_task_id := some (cfg.genId s.world.nextCardId) }
                   with row_number := l.row_number }
               else l),
             cards := s.world.cards ++ [mintedCard cfg s.world lead],
             nextCardId := s.world.nextCardId + 1 },
         stats := { s.stats with tasks_created := s.stats.tasks_created + 1 },
         trace := s.trace ++
           [.getCard (pyStrip lead.trello_task_id), .createCard lead.name,
            .readLeads, .writeLead lead.row_number],
         tick := s.tick + 4 }) := by
  unfold processLeadToTask
  dsimp only
  rw [if_neg hname, if_neg hrefne,
      get_card_ok faults s (pyStrip lead.trello_task_id) h0]
  simp only [hnone]
  rw [create_task_ok cfg faults _ lead (by simpa using h1)]
  dsimp only
  rw [update_lead_by_row_ok faults _ lead.row_number _ cur ?ha ?hb ?hc]
  case ha => simpa using h2
  case hb => simpa using h3
  case hc => simpa using hfind
  simp [bumpTasksCreated, List.append_assoc]

/-- Non-empty `task_ref`, card gone, and the replacement creation
answers with a falsy body: NO counter is bumped - unlike the
empty-`task_ref` branch there is no `else` incrementing the error
counter (`sync_logic.py` lines 233-237). -/
lemma processLead_notfound_falsy (cfg : TrelloCfg) (faults : FaultO) (s : S)
    (lead : Lead)
    (hname : ¬ pyStrip lead.name = "")
    (hrefne : ¬ pyStrip lead.trello_task_id = "")
    (hnone : s.world.cards.find?
      (fun c => c.id == pyStrip lead.trello_task_id) = none)
    (h0 : faults s.tick = .ok) (h1 : faults (s.tick + 1) = .falsy) :
    processLeadToTask cfg faults s lead =
      (.replacedNoId,
       { s with
           tick := s.tick + 2,
           trace := s.trace ++
             [.getCard (pyStrip lead.trello_task_id),
              .createCard lead.name] }) := by
  unfold processLeadToTask
  dsimp only
  rw [if_neg hname, if_neg hrefne,
      get_card_ok faults s (pyStrip lead.trello_task_id) h0]
  simp only [hnone]
  rw [create_task_falsy cfg faults _ lead (by simpa using h1)]
  simp [List.append_assoc]

/-- Non-empty `task_ref` whose card is on the board: no creation call
is made; at most one update call is issued, and only when one of the
three compared fields differs. -/
lemma processLead_linked (cfg : TrelloCfg) (faults : FaultO) (s : S)
    (lead : Lead) (card : Card)
    (hname : ¬ pyStrip lead.name = "")
    (hrefne : ¬ pyStrip lead.trello_task_id = "")
    (hsome : s.world.cards.find?
      (fun c => c.id == pyStrip lead.trello_task_id) = some card)
    (h0 : faults s.tick = .ok) (h1 : faults (s.tick + 1) = .ok) :
    processLeadToTask cfg faults s lead =
      (.noChange,
       { s with tick := s.tick + 1,
                trace := s.trace ++ [.getCard (pyStrip lead.trello_task_id)] }) ∨
    ((processLeadToTask cfg faults s lead).1 = .updated ∧
     (processLeadToTask cfg faults s lead).2.trace =
       s.trace ++ [.getCard (pyStrip lead.trello_task_id),
                   .updateCard (pyStrip lead.trello_task_id)] ∧
     (processLeadToTask cfg faults s lead).2.world.leads = s.world.leads) := by
  unfold processLeadToTask
  dsimp only
  rw [if_neg hname, if_neg hrefne,
      get_card_ok faults s (pyStrip lead.trello_task_id) h0]
  simp only [hsome]
  by_cases hc :
    ((if card.name ≠ pyStrip lead.name then some (pyStrip lead.name)
      else none).isSome ||
     (if card.desc ≠ format_card_description (pyStrip lead.email)
          (pyStrip lead.source) (pyStrip lead.id) then
        some (format_card_description (pyStrip lead.email)
          (pyStrip lead.source) (pyStrip lead.id))
      else none).isSome ||
     (if get_status_from_list_id cfg card.idList ≠ normalize_status lead.status
      then some (normalize_status lead.status)
      else none).isSome) = true
  · right
    rw [if_pos hc]
    rw [update_card_ok cfg faults _ (pyStrip lead.trello_task_id) _
          (by simpa using h1)]
    simp [bumpTasksUpdated, List.append_assoc]
  · left
    rw [if_neg hc]

/-- Linked card whose title, body and list-derived status all match the
record: no call at all beyond the fetch. -/
lemma processLead_linked_noop (cfg : TrelloCfg) (faults : FaultO) (s : S)
    (lead : Lead) (card : Card)
    (hname : ¬ pyStrip lead.name = "")
    (hrefne : ¬ pyStrip lead.trello_task_id = "")
    (hsome : s.world.cards.find?
      (fun c => c.id == pyStrip lead.trello_task_id) = some card)
    (h0 : faults s.tick = .ok)
    (hn : card.name = pyStrip lead.name)
    (hd : card.desc = format_card_description (pyStrip lead.email)
      (pyStrip lead.source) (pyStrip lead.id))
    (hs : get_status_from_list_id cfg card.idList =
      normalize_status lead.status) :
    processLeadToTask cfg faults s lead =
      (.noChange,
       { s with tick := s.tick + 1,
                trace := s.trace ++
                  [.getCard (pyStrip lead.trello_task_id)] }) := by
  unfold processLeadToTask
  dsimp only
  rw [if_neg hname, if_neg hrefne,
      get_card_ok faults s (pyStrip lead.trello_task_id) h0]
  simp only [hsome]
  rw [if_neg (by simp [hn, hd, hs])]

/-! ### Helper lemmas : per-card scenarios of `_process_task_to_lead` -/

/-- Linked card whose list-derived status differs from the record's
normalized status: the upper-cased canonical status is written to the
record's row and the pushed-counter bumped. -/
lemma processTask_differ (cfg : TrelloCfg) (faults : FaultO) (s : S)
    (card : Card) (leads : List Lead) (lead cur : Lead)
    (hmap : leadMapFind leads card.id = some lead)
    (hne : get_status_from_list_id cfg card.idList ≠
      normalize_status lead.status)
    (h0 : faults s.tick = .ok) (h1 : faults (s.tick + 1) = .ok)
    (hfind : s.world.leads.find? (fun l => l.row_number == lead.row_number) =
      some cur) :
    processTaskToLead cfg faults s card leads =
      (.synced lead.row_number true,
       { world :=
           { s.world with
               leads := s.world.leads.map (fun l =>
                 if l.row_number == lead.row_number then
                   { applyLeadUpdates cur
                       { status := some (pyUpper
                           (get_status_from_list_id cfg card.idList)) }
                     with row_number := l.row_number }
                 else l) },
         stats := { s.stats with status_synced_to_sheets :=
           s.stats.status_synced_to_sheets + 1 },
         trace := s.trace ++ [.readLeads, .writeLead lead.row_number],
         tick := s.tick + 2 }) := by
  unfold processTaskToLead
  rw [hmap]
  dsimp only
  rw [if_pos hne]
  rw [update_lead_by_row_ok faults _ lead.row_number _ cur h0 h1 hfind]
  simp [bumpSynced]

/-- Linked card whose list-derived status equals the record's
normalized status: nothing happens at all - no write, no counter, no
network call. -/
lemma processTask_equal (cfg : TrelloCfg) (faults : FaultO) (s : S)
    (card : Card) (leads : List Lead) (lead : Lead)
    (hmap : leadMapFind leads card.id = some lead)
    (heq : get_status_from_list_id cfg card.idList =
      normalize_status lead.status) :
    processTaskToLead cfg faults s card leads = (.inSync, s) := by
  unfold processTaskToLead
  rw [hmap]
  dsimp only
  rw [if_neg (by simp [heq])]

/-! ### Helper lemmas : traces only grow, reads are faithful -/

lemma read_leads_trace (faults : FaultO) (s : S) :
    (read_leads faults s).2.trace = s.trace ++ [Event.readLeads] := by
  unfold read_leads netOp
  dsimp only
  cases faults s.tick <;> rfl

lemma get_all_cards_trace (faults : FaultO) (s : S) :
    (get_all_cards faults s).2.trace = s.trace ++ [Event.readCards] := by
  unfold get_all_cards netOp
  dsimp only
  cases faults s.tick <;> rfl

lemma get_card_trace (faults : FaultO) (s : S) (cid : String) :
    (get_card faults s cid).2.trace = s.trace ++ [Event.getCard cid] := by
  unfold get_card netOp
  dsimp only
  cases faults s.tick <;> rfl

lemma create_card_trace (cfg : TrelloCfg) (faults : FaultO) (s : S)
    (n d st : String) :
    (create_card cfg faults s n d st).2.trace = s.trace ++ [Event.createCard n] := by
  unfold create_card netOp
  dsimp only
  cases faults s.tick <;> rfl

lemma create_task_trace (cfg : TrelloCfg) (faults : FaultO) (s : S)
    (lead : Lead) :
    (create_task_for_lead cfg faults s lead).2.trace =
      s.trace ++ [Event.createCard lead.name] := by
  unfold create_task_for_lead
  dsimp only
  rcases h : create_card cfg faults s lead.name
    (format_card_description lead.email lead.source lead.id)
    (normalize_status lead.status) with ⟨r, s1⟩
  have hs1 : s1.trace = s.trace ++ [Event.createCard lead.name] := by
    have h2 := create_card_trace cfg faults s lead.name
      (format_card_description lead.email lead.source lead.id)
      (normalize_status lead.status)
    rw [h] at h2
    exact h2
  rcases r with e | o
  · exact hs1
  · rcases o with _ | c <;> exact hs1

lemma update_card_trace (cfg : TrelloCfg) (faults : FaultO) (s : S)
    (cid : String) (u : CardUpdates) :
    (update_card cfg faults s cid u).2.trace = s.trace ++ [Event.updateCard cid] := by
  unfold update_card netOp
  dsimp only
  cases faults s.tick <;> rfl

lemma update_lead_trace (faults : FaultO) (s : S) (row : Nat) (ld : Lead) :
    (update_lead faults s row ld).2.trace = s.trace ++ [Event.writeLead row] := by
  unfold update_lead netOp
  dsimp only
  cases faults s.tick <;> rfl

lemma update_lead_by_row_trace (faults : FaultO) (s : S) (row : Nat)
    (u : LeadUpdates) :
    s.trace <+: (update_lead_by_row faults s row u).2.trace := by
  unfold update_lead_by_row
  rcases h : read_leads faults s with ⟨r, s1⟩
  have hs1 : s1.trace = s.trace ++ [Event.readLeads] := by
    have h2 := read_leads_trace faults s
    rw [h] at h2
    exact h2
  rcases r with e | leads
  · exact ⟨_, hs1.symm⟩
  · dsimp only
    cases hf : leads.find? (fun l => l.row_number == row) with
    | none => simp only [hf]; exact ⟨_, hs1.symm⟩
    | some cur =>
      simp only [hf]
      rcases h2 : update_lead faults s1 row (applyLeadUpdates cur u) with ⟨r2, s2⟩
      have hs2 : s2.trace = s1.trace ++ [Event.writeLead row] := by
        have h3 := update_lead_trace faults s1 row (applyLeadUpdates cur u)
        rw [h2] at h3
        exact h3
      have : s.trace <+: s2.trace := by
        rw [hs2, hs1]
        simp [List.append_assoc]
      rcases r2 with e | u2 <;> exact this

lemma processLead_trace (cfg : TrelloCfg) (faults : FaultO) (s : S)
    (lead : Lead) :
    s.trace <+: (processLeadToTask cfg faults s lead).2.trace := by
  unfold processLeadToTask
  dsimp only
  by_cases hname : pyStrip lead.name = ""
  · simp [hname, bumpSkipped]
  rw [if_neg hname]
  by_cases href : pyStrip lead.trello_task_id = ""
  · rw [if_pos href]
    rcases h1 : create_task_for_lead cfg faults s lead with ⟨r1, s1⟩
    have hs1 : s1.trace = s.trace ++ [Event.createCard lead.name] := by
      have h2 := create_task_trace cfg faults s lead
      rw [h1] at h2
      exact h2
    have hpre1 : s.trace <+: s1.trace := ⟨_, hs1.symm⟩
    rcases r1 with e | o
    · exact hpre1
    · rcases o with _ | cid
      · simpa [bumpErrors] using hpre1
      · dsimp only
        rcases h2 : update_lead_by_row faults s1 lead.row_number
          { trello_task_id := some cid } with ⟨b, s2⟩
        have hpre2 : s1.trace <+: s2.trace := by
          have h3 := update_lead_by_row_trace faults s1 lead.row_number
            { trello_task_id := some cid }
          rw [h2] at h3
          exact h3
        simpa [bumpTasksCreated] using hpre1.trans hpre2
  · rw [if_neg href]
    rcases h1 : get_card faults s (pyStrip lead.trello_task_id) with ⟨r1, s1⟩
    have hs1 : s1.trace = s.trace ++ [Event.getCard (pyStrip lead.trello_task_id)] := by
      have h2 := get_card_trace faults s (pyStrip lead.trello_task_id)
      rw [h1] at h2
      exact h2
    have hpre1 : s.trace <+: s1.trace := ⟨_, hs1.symm⟩
    rcases r1 with e | o
    · exact hpre1
    · rcases o with _ | card
      · dsimp only
        rcases h2 : create_task_for_lead cfg faults s1 lead with ⟨r2, s2⟩
        have hpre2 : s1.trace <+: s2.trace := by
          have h3 := create_task_trace cfg faults s1 lead
          rw [h2] at h3
          exact ⟨_, h3.symm⟩
        rcases r2 with e | o2
        · exact hpre1.trans hpre2
        · rcases o2 with _ | cid
          · exact hpre1.trans hpre2
          · dsimp only
            rcases h3 : update_lead_by_row faults s2 lead.row_number
              { trello_task_id := some cid } with ⟨b, s3⟩
            have hpre3 : s2.trace <+: s3.trace := by
              have h4 := update_lead_by_row_trace faults s2 lead.row_number
                { trello_task_id := some cid }
              rw [h3] at h4
              exact h4
            simpa [bumpTasksCreated] using (hpre1.trans hpre2).trans hpre3
      · dsimp only
        by_cases hc :
          ((if card.name ≠ pyStrip lead.name then some (pyStrip lead.name)
            else none).isSome ||
           (if card.desc ≠ format_card_description (pyStrip lead.email)
                (pyStrip lead.source) (pyStrip lead.id) then
              some (format_card_description (pyStrip lead.email)
                (pyStrip lead.source) (pyStrip lead.id))
            else none).isSome ||
           (if get_status_from_list_id cfg card.idList ≠
                normalize_status lead.status
            then some (normalize_status lead.status)
            else none).isSome) = true
        · rw [if_pos hc]
          rcases h2 : update_card cfg faults s1 (pyStrip lead.trello_task_id)
            ⟨if card.name ≠ pyStrip lead.name then some (pyStrip lead.name)
              else none,
             if card.desc ≠ format_card_description (pyStrip lead.email)
                  (pyStrip lead.source) (pyStrip lead.id) then
               some (format_card_description (pyStrip lead.email)
                 (pyStrip lead.source) (pyStrip lead.id))
             else none,
             if get_status_from_list_id cfg card.idList ≠
                  normalize_status lead.status
             then some (normalize_status lead.status)
             else none⟩ with ⟨r2, s2⟩
          have hpre2 : s1.trace <+: s2.trace := by
            have h3 := update_card_trace cfg faults s1
              (pyStrip lead.trello_task_id)
              ⟨if card.name ≠ pyStrip lead.name then some (pyStrip lead.name)
                else none,
               if card.desc ≠ format_card_description (pyStrip lead.email)
                    (pyStrip lead.source) (pyStrip lead.id) then
                 some (format_card_description (pyStrip lead.email)
                   (pyStrip lead.source) (pyStrip lead.id))
               else none,
               if get_status_from_list_id cfg card.idList ≠
                    normalize_status lead.status
               then some (normalize_status lead.status)
               else none⟩
            rw [h2] at h3
            exact ⟨_, h3.symm⟩
          rcases r2 with e | u2 <;>
            simpa [bumpTasksUpdated] using hpre1.trans hpre2
        · rw [if_neg hc]
          exact hpre1

lemma processTask_trace (cfg : TrelloCfg) (faults : FaultO) (s : S)
    (card : Card) (leads : List Lead) :
    s.trace <+: (processTaskToLead cfg faults s card leads).2.trace := by
  unfold processTaskToLead
  cases hm : leadMapFind leads card.id with
  | none => simp [bumpSkipped]
  | some lead =>
    dsimp only
    split
    · dsimp only
      rcases h1 : update_lead_by_row faults s lead.row_number
        { status := some (pyUpper (get_status_from_list_id cfg card.idList)) }
        with ⟨b, s1⟩
      have hpre1 : s.trace <+: s1.trace := by
        have h2 := update_lead_by_row_trace faults s lead.row_number
          { status := some (pyUpper (get_status_from_list_id cfg card.idList)) }
        rw [h1] at h2
        exact h2
      simpa [bumpSynced] using hpre1
    · exact List.prefix_refl _

lemma flowALoop_trace (cfg : TrelloCfg) (faults : FaultO) (leads : List Lead) :
    ∀ s : S, s.trace <+: (flowALoop cfg faults s leads).2.trace := by
  induction leads with
  | nil => intro s; simp [flowALoop]
  | cons l rest ih =>
    intro s
    rcases hr : processLeadToTask cfg faults s l with ⟨r1, s1⟩
    have hpre1 : s.trace <+: s1.trace := by
      have h := processLead_trace cfg faults s l
      rw [hr] at h
      exact h
    simp only [flowALoop, hr]
    by_cases hraised : r1 = RecA.raised
    · rw [if_pos hraised]
      exact hpre1.trans (ih (bumpErrors s1))
    · rw [if_neg hraised]
      exact hpre1.trans (ih s1)

lemma flowBLoop_trace (cfg : TrelloCfg) (faults : FaultO) (leads : List Lead)
    (cards : List Card) :
    ∀ s : S, s.trace <+: (flowBLoop cfg faults leads s cards).2.trace := by
  induction cards with
  | nil => intro s; simp [flowBLoop]
  | cons c rest ih =>
    intro s
    rcases hr : processTaskToLead cfg faults s c leads with ⟨r1, s1⟩
    have hpre1 : s.trace <+: s1.trace := by
      have h := processTask_trace cfg faults s c leads
      rw [hr] at h
      exact h
    simp only [flowBLoop, hr]
    exact hpre1.trans (ih s1)

lemma syncTasksToLeads_trace (cfg : TrelloCfg) (faults : FaultO) (s : S) :
    s.trace <+: (syncTasksToLeads cfg faults s).2.trace := by
  unfold syncTasksToLeads
  rcases h1 : get_all_cards faults s with ⟨r1, s1⟩
  have hpre1 : s.trace <+: s1.trace := by
    have h := get_all_cards_trace faults s
    rw [h1] at h
    exact ⟨_, h.symm⟩
  rcases r1 with e | cards
  · exact hpre1
  · dsimp only
    by_cases hemp : cards.isEmpty
    · simp only [hemp, if_true]
      exact hpre1
    · simp only [hemp, if_false]
      rcases h2 : read_leads faults s1 with ⟨r2, s2⟩
      have hpre2 : s1.trace <+: s2.trace := by
        have h := read_leads_trace faults s1
        rw [h2] at h
        exact ⟨_, h.symm⟩
      rcases r2 with e | leads
      · exact hpre1.trans hpre2
      · exact (hpre1.trans hpre2).trans (flowBLoop_trace cfg faults leads cards s2)

lemma syncLeadsToTasks_trace (cfg : TrelloCfg) (faults : FaultO) (s : S) :
    s.trace <+: (syncLeadsToTasks cfg faults s).2.trace := by
  unfold syncLeadsToTasks
  rcases h1 : read_leads faults s with ⟨r1, s1⟩
  have hpre1 : s.trace <+: s1.trace := by
    have h := read_leads_trace faults s
    rw [h1] at h
    exact ⟨_, h.symm⟩
  rcases r1 with e | leads
  · exact hpre1
  · dsimp only
    by_cases hemp : leads.isEmpty
    · simp only [hemp, if_true]
      exact hpre1
    · simp only [hemp, if_false]
      exact hpre1.trans (flowALoop_trace cfg faults leads s1)

lemma read_leads_val (faults : FaultO) (s : S) (leads : List Lead)
    (h : (read_leads faults s).1 = .ok leads) : leads = s.world.leads := by
  unfold read_leads netOp at h
  dsimp only at h
  cases hf : faults s.tick <;> rw [hf] at h <;> simp_all

lemma syncLeads_fresh (cfg : TrelloCfg) (faults : FaultO) (s : S)
    (a : List Lead × List RecA)
    (h : (syncLeadsToTasks cfg faults s).1 = .ok a) : a.1 = s.world.leads := by
  unfold syncLeadsToTasks at h
  rcases h1 : read_leads faults s with ⟨r1, s1⟩
  rw [h1] at h
  rcases r1 with e | leads
  · simp at h
  · have hl : leads = s.world.leads :=
      read_leads_val faults s leads (by rw [h1])
    dsimp only at h
    cases hemp : leads.isEmpty <;> simp only [hemp] at h
    · simp only [if_false, Bool.false_eq_true] at h
      simp only [Except.ok.injEq] at h
      rw [← h]
      exact hl
    · simp only [if_true] at h
      simp only [Except.ok.injEq] at h
      rw [← h]
      exact hl

/-- Flow A over a one-row sheet whose record does not raise: the flow
returns that record's outcome and final state. -/
lemma syncLeads_singleton (cfg : TrelloCfg) (faults : FaultO) (s : S) (l : Lead)
    (h0 : faults s.tick = .ok) (hleads : s.world.leads = [l])
    (hnr : (processLeadToTask cfg faults
        { s with tick := s.tick + 1, trace := s.trace ++ [Event.readLeads] }
        l).1 ≠ RecA.raised) :
    syncLeadsToTasks cfg faults s =
      (.ok ([l],
        [(processLeadToTask cfg faults
           { s with tick := s.tick + 1, trace := s.trace ++ [Event.readLeads] }
           l).1]),
       (processLeadToTask cfg faults
         { s with tick := s.tick + 1, trace := s.trace ++ [Event.readLeads] }
         l).2) := by
  unfold syncLeadsToTasks
  rw [read_leads_ok faults s h0]
  dsimp only
  rw [hleads]
  simp only [List.isEmpty_cons, Bool.false_eq_true, if_false]
  simp only [flowALoop]
  rw [if_neg hnr]


/-! ### C9 -/

/-- C9 amended: in either flow the per-record loop processes every
record (a raised record never stops the loop), and at the end of Flow
A's loop the error counter has grown by exactly the number of records
that raised PLUS the number of records whose empty-`task_ref` creation
returned no id (the code also counts those as errors without any
exception); Flow B's loop never touches the error counter. -/
theorem flow_error_accounting (cfg : TrelloCfg) (faults : FaultO) :
    (∀ (leads : List Lead) (s : S),
       (flowALoop cfg faults s leads).1.length = leads.length ∧
       (flowALoop cfg faults s leads).2.stats.errors =
         s.stats.errors + countRaisedA (flowALoop cfg faults s leads).1 +
           countNoIdA (flowALoop cfg faults s leads).1) ∧
    (∀ (cards : List Card) (leads : List Lead) (s : S),
       (flowBLoop cfg faults leads s cards).1.length = cards.length ∧
       (flowBLoop cfg faults leads s cards).2.stats.errors =
         s.stats.errors) :=
  ⟨fun leads s => flowALoop_spec cfg faults leads s,
   fun cards leads s => flowBLoop_spec cfg faults leads cards s⟩

/-- C9 counterexample: a full run in which NO record raised (the single
record's creation returned no id, outcome `createdNoId`) still ends
with `errors = 1`, so the final error count does not equal the number
of records whose processing raised. -/
theorem error_count_counterexample :
    (run_sync cfg0 faults9 s0).1.errors = 1 ∧
    (syncLeadsToTasks cfg0 faults9
        ((syncTasksToLeads cfg0 faults9 (resetStats s0)).2)).1 =
      Except.ok ([lead0], [RecA.createdNoId]) ∧
    countRaisedA [RecA.createdNoId] = 0 := by decide

/-! ### C5 -/

/-- C5 counterexample: a record whose `task_ref` points to a deleted
card and whose replacement creation fails (falsy id) ends the record's
processing with ALL statistics unchanged - in particular `errors` is
NOT incremented - while the very same creation failure on an
empty-`task_ref` record increments `errors`. -/
theorem replacement_error_counter_counterexample :
    (processLeadToTask cfg0 faults5 s5 lead5).1 = RecA.replacedNoId ∧
    (processLeadToTask cfg0 faults5 s5 lead5).2.stats = Stats.zero ∧
    (processLeadToTask cfg0 faults5e s0 lead0).1 = RecA.createdNoId ∧
    (processLeadToTask cfg0 faults5e s0 lead0).2.stats.errors = 1 := by
  decide

/-- C5 amended: a record whose `task_ref` resolves to a missing card is
treated like an unlinked record for creation, write-back and the
created-counter; but when the replacement creation returns no id, no
counter at all is incremented - the empty-`task_ref` branch's error
increment has no counterpart in the not-found branch. -/
theorem replacement_task_self_heal (cfg : TrelloCfg) (s : S)
    (lead cur : Lead)
    (hname : ¬ pyStrip lead.name = "")
    (hrefne : ¬ pyStrip lead.trello_task_id = "")
    (hnone : s.world.cards.find?
      (fun c => c.id == pyStrip lead.trello_task_id) = none)
    (hfind : s.world.leads.find? (fun l => l.row_number == lead.row_number) =
      some cur) :
    (∀ faults : FaultO,
       faults s.tick = .ok → faults (s.tick + 1) = .ok →
       faults (s.tick + 2) = .ok → faults (s.tick + 3) = .ok →
       processLeadToTask cfg faults s lead =
         (.replaced (cfg.genId s.world.nextCardId) true,
          { world :=
              { leads := s.world.leads.map (fun l =>
                  if l.row_number == lead.row_number then
                    { applyLeadUpdates cur
                        { trello_task_id :=
                            some (cfg.genId s.world.nextCardId) }
                      with row_number := l.row_number }
                  else l),
                cards := s.world.cards ++ [mintedCard cfg s.world lead],
                nextCardId := s.world.nextCardId + 1 },
            stats :=
              { s.stats with tasks_created := s.stats.tasks_created + 1 },
            trace := s.trace ++
              [.getCard (pyStrip lead.trello_task_id),
               .createCard lead.name, .readLeads,
               .writeLead lead.row_number],
            tick := s.tick + 4 })) ∧
    (∀ faults : FaultO,
       faults s.tick = .ok → faults (s.tick + 1) = .falsy →
       processLeadToTask cfg faults s lead =
         (.replacedNoId,
          { s with
              tick := s.tick + 2,
              trace := s.trace ++
                [.getCard (pyStrip lead.trello_task_id),
                 .createCard lead.name] })) :=
  ⟨fun faults h0 h1 h2 h3 =>
     processLead_notfound_ok cfg faults s lead cur hname hrefne hnone
       h0 h1 h2 h3 hfind,
   fun faults h0 h1 =>
     processLead_notfound_falsy cfg faults s lead hname hrefne hnone h0 h1⟩

/-- Witness for the amended C5 at concrete inputs. -/
theorem replacement_task_self_heal_witness :
    (processLeadToTask cfg0 faultsOk s5 lead5).1 = RecA.replaced "c0" true ∧
    (processLeadToTask cfg0 faults5 s5 lead5).1 = RecA.replacedNoId := by
  have h := replacement_task_self_heal cfg0 s5 lead5 lead5 (by decide)
    (by decide) (by decide) (by decide)
  constructor
  · rw [h.1 faultsOk (by decide) (by decide) (by decide) (by decide)]
    decide
  · rw [h.2 faults5 (by decide) (by decide)]

/-! ### C10 -/

/-- C10: for a record whose creation succeeds, the created-counter is
bumped even when the write of the new task id into the record fails:
`update_lead_by_row` swallows the exception and returns `False`, the
engine ignores that value, no error counter moves, the record stays
unlinked, and processing the same record again creates a second card -
a duplicate task for the one record. -/
theorem writeback_swallow_duplicate (cfg : TrelloCfg) (faults : FaultO)
    (s : S) (lead cur : Lead)
    (hname : ¬ pyStrip lead.name = "")
    (href : pyStrip lead.trello_task_id = "")
    (h0 : faults s.tick = .ok) (h1 : faults (s.tick + 1) = .exn)
    (h2 : faults (s.tick + 2) = .ok) (h3 : faults (s.tick + 3) = .ok)
    (h4 : faults (s.tick + 4) = .ok)
    (hfind : s.world.leads.find? (fun l => l.row_number == lead.row_number) =
      some cur) :
    ∃ s1, processLeadToTask cfg faults s lead =
        (.created (cfg.genId s.world.nextCardId) false, s1) ∧
      s1.stats.tasks_created = s.stats.tasks_created + 1 ∧
      s1.stats.errors = s.stats.errors ∧
      s1.world.leads = s.world.leads ∧
      s1.world.cards = s.world.cards ++ [mintedCard cfg s.world lead] ∧
      ∃ s2, processLeadToTask cfg faults s1 lead =
          (.created (cfg.genId s1.world.nextCardId) true, s2) ∧
        s2.world.cards = s.world.cards ++
          [mintedCard cfg s.world lead, mintedCard cfg s1.world lead] ∧
        countCreates (s2.trace.drop s.trace.length) = 2 := by
  have hfirst := processLead_create_writeback_exn cfg faults s lead hname
    href h0 h1
  refine ⟨_, hfirst, rfl, rfl, rfl, rfl, ?_⟩
  have hsecond := processLead_create_ok cfg faults
    ({ world :=
         { leads := s.world.leads,
           cards := s.world.cards ++ [mintedCard cfg s.world lead],
           nextCardId := s.world.nextCardId + 1 },
       stats := { s.stats with tasks_created := s.stats.tasks_created + 1 },
       trace := s.trace ++ [.createCard lead.name, .readLeads],
       tick := s.tick + 2 } : S) lead cur hname href
    (by simpa using h2) (by simpa using h3) (by simpa using h4)
    (by simpa using hfind)
  refine ⟨_, hsecond, ?_, ?_⟩
  · simp
  · simp [countCreates, List.drop_left]

/-- Witness for C10 at the concrete unlinked lead. -/
theorem writeback_swallow_duplicate_witness :
    ∃ s1, processLeadToTask cfg0 faultsWB s0 lead0 =
        (.created (cfg0.genId s0.world.nextCardId) false, s1) ∧
      s1.stats.tasks_created = s0.stats.tasks_created + 1 ∧
      s1.stats.errors = s0.stats.errors ∧
      s1.world.leads = s0.world.leads ∧
      s1.world.cards = s0.world.cards ++ [mintedCard cfg0 s0.world lead0] ∧
      ∃ s2, processLeadToTask cfg0 faultsWB s1 lead0 =
          (.created (cfg0.genId s1.world.nextCardId) true, s2) ∧
        s2.world.cards = s0.world.cards ++
          [mintedCard cfg0 s0.world lead0, mintedCard cfg0 s1.world lead0] ∧
        countCreates (s2.trace.drop s0.trace.length) = 2 :=
  writeback_swallow_duplicate cfg0 faultsWB s0 lead0 lead0 (by decide)
    (by decide) (by decide) (by decide) (by decide) (by decide) (by decide)
    (by decide)

/-! ### C4 -/

/-- C4 counterexample: a linked record/task pair whose canonical
statuses MATCH (`new` on both sides).  The reverse flow indeed issues
no write, but the forward flow still issues one update call - the card
title differs from the record's display name - so the claim "when the
two canonical statuses match, neither flow issues any write for that
pair" is false. -/
theorem noop_law_counterexample :
    get_status_from_list_id cfg0 card4.idList = normalize_status lead4.status ∧
    processTaskToLead cfg0 faultsOk s4 card4 [lead4] = (RecB.inSync, s4) ∧
    (processLeadToTask cfg0 faultsOk s4 lead4).1 = RecA.updated ∧
    countCardUpdates (processLeadToTask cfg0 faultsOk s4 lead4).2.trace = 1 := by
  decide

/-- C4 amended: the reverse flow writes the task's upper-cased
canonical status into the record's row and bumps the pushed-counter
exactly when the two canonical statuses differ, and does nothing at all
when they match; with matching statuses the FORWARD flow is a no-op
only when the card's title and body also match the record (it still
issues an update call when either differs). -/
theorem reverse_status_sync_amended (cfg : TrelloCfg) (s : S) (card : Card)
    (leads : List Lead) (lead cur : Lead)
    (hmap : leadMapFind leads card.id = some lead)
    (hfind : s.world.leads.find? (fun l => l.row_number == lead.row_number) =
      some cur) :
    (∀ faults : FaultO,
       get_status_from_list_id cfg card.idList ≠
         normalize_status lead.status →
       faults s.tick = .ok → faults (s.tick + 1) = .ok →
       processTaskToLead cfg faults s card leads =
         (.synced lead.row_number true,
          { world :=
              { s.world with
                  leads := s.world.leads.map (fun l =>
                    if l.row_number == lead.row_number then
                      { applyLeadUpdates cur
                          { status := some (pyUpper
                              (get_status_from_list_id cfg card.idList)) }
                        with row_number := l.row_number }
                    else l) },
            stats := { s.stats with status_synced_to_sheets :=
              s.stats.status_synced_to_sheets + 1 },
            trace := s.trace ++ [.readLeads, .writeLead lead.row_number],
            tick := s.tick + 2 })) ∧
    (∀ faults : FaultO,
       get_status_from_list_id cfg card.idList =
         normalize_status lead.status →
       processTaskToLead cfg faults s card leads = (.inSync, s)) ∧
    (∀ (faults : FaultO) (s2 : S) (lead2 : Lead) (card2 : Card),
       ¬ pyStrip lead2.name = "" →
       ¬ pyStrip lead2.trello_task_id = "" →
       s2.world.cards.find?
         (fun c => c.id == pyStrip lead2.trello_task_id) = some card2 →
       faults s2.tick = .ok →
       card2.name = pyStrip lead2.name →
       card2.desc = format_card_description (pyStrip lead2.email)
         (pyStrip lead2.source) (pyStrip lead2.id) →
       get_status_from_list_id cfg card2.idList =
         normalize_status lead2.status →
       processLeadToTask cfg faults s2 lead2 =
         (.noChange,
          { s2 with tick := s2.tick + 1,
                    trace := s2.trace ++
                      [.getCard (pyStrip lead2.trello_task_id)] })) :=
  ⟨fun faults hne h0 h1 =>
     processTask_differ cfg faults s card leads lead cur hmap hne h0 h1 hfind,
   fun faults heq =>
     processTask_equal cfg faults s card leads lead hmap heq,
   fun faults s2 lead2 card2 hname hrefne hsome h0 hn hd hs =>
     processLead_linked_noop cfg faults s2 lead2 card2 hname hrefne hsome
       h0 hn hd hs⟩

/-- Witness for the amended C4: with the card in `qualified` and the
record stored as `new`, the reverse flow writes `"QUALIFIED"` into the
row and bumps the counter; with matching statuses it does nothing. -/
theorem reverse_status_sync_amended_witness :
    (processTaskToLead cfg0 faultsOk s4b card4b [lead4b]).2.world.leads =
      [{ lead4b with status := "QUALIFIED" }] ∧
    (processTaskToLead cfg0 faultsOk s4b card4b
      [lead4b]).2.stats.status_synced_to_sheets = 1 ∧
    processTaskToLead cfg0 faultsOk s4 card4 [lead4] = (RecB.inSync, s4) := by
  have h := reverse_status_sync_amended cfg0 s4b card4b [lead4b] lead4b lead4b
    (by decide) (by decide)
  have h1 := h.1 faultsOk (by decide) (by decide) (by decide)
  have h2 := reverse_status_sync_amended cfg0 s4 card4 [lead4] lead4 lead4
    (by decide) (by decide)
  refine ⟨?_, ?_, h2.2.1 faultsOk (by decide)⟩
  · rw [h1]
    decide
  · rw [h1]
    decide

/-! ### C1 -/

/-- C1: within one `run()`, Flow B (task→record) runs to completion
before Flow A (record→task) starts: the run's trace is Flow B's events
followed by Flow A's events (so no Flow A read precedes any Flow B
write), Flow A is skipped entirely when Flow B raises, and Flow A's
fresh read returns exactly the record list as left behind by Flow B's
committed writes. -/
theorem run_sync_flow_order (cfg : TrelloCfg) (faults : FaultO) (s : S) :
    ∃ tB, (syncTasksToLeads cfg faults (resetStats s)).2.trace = s.trace ++ tB ∧
      ((syncTasksToLeads cfg faults (resetStats s)).1 = .error () →
         (run_sync cfg faults s).2.trace =
           (syncTasksToLeads cfg faults (resetStats s)).2.trace) ∧
      (∀ b, (syncTasksToLeads cfg faults (resetStats s)).1 = .ok b →
         ∃ tA,
           (syncLeadsToTasks cfg faults
             ((syncTasksToLeads cfg faults (resetStats s)).2)).2.trace =
             s.trace ++ tB ++ tA ∧
           (run_sync cfg faults s).2.trace =
             (syncLeadsToTasks cfg faults
               ((syncTasksToLeads cfg faults (resetStats s)).2)).2.trace ∧
           ∀ a, (syncLeadsToTasks cfg faults
               ((syncTasksToLeads cfg faults (resetStats s)).2)).1 = .ok a →
             a.1 = (syncTasksToLeads cfg faults (resetStats s)).2.world.leads) := by
  obtain ⟨tB, htB⟩ := syncTasksToLeads_trace cfg faults (resetStats s)
  refine ⟨tB, htB.symm, ?_, ?_⟩
  · intro herr
    rcases hB : syncTasksToLeads cfg faults (resetStats s) with ⟨rB, sB⟩
    rw [hB] at herr
    have herr2 : rB = .error () := herr
    unfold run_sync
    dsimp only
    rw [hB]
    subst herr2
    rfl
  · intro b hok
    obtain ⟨tA, htA⟩ := syncLeadsToTasks_trace cfg faults
      ((syncTasksToLeads cfg faults (resetStats s)).2)
    refine ⟨tA, ?_, ?_, ?_⟩
    · rw [← htA, ← htB]
      rfl
    · rcases hB : syncTasksToLeads cfg faults (resetStats s) with ⟨rB, sB⟩
      rw [hB] at hok
      have hok2 : rB = .ok b := hok
      unfold run_sync
      dsimp only
      rw [hB]
      subst hok2
      dsimp only
      rcases hA : syncLeadsToTasks cfg faults sB with ⟨rA, sA⟩
      rcases rA with e | a2
      · rfl
      · rfl
    · intro a ha
      exact syncLeads_fresh cfg faults _ a ha

/-- Witness for C1 at a concrete run (empty board, one unlinked lead):
the run trace ends with Flow A's events and Flow A read exactly the
post-Flow-B records. -/
theorem run_sync_flow_order_witness :
    (run_sync cfg0 faultsOk s0).2.trace =
      (syncLeadsToTasks cfg0 faultsOk
        ((syncTasksToLeads cfg0 faultsOk (resetStats s0)).2)).2.trace ∧
    ([lead0], [RecA.created "c0" true]).1 =
      (syncTasksToLeads cfg0 faultsOk (resetStats s0)).2.world.leads := by
  obtain ⟨tB, htB, herr, hok2⟩ := run_sync_flow_order cfg0 faultsOk s0
  obtain ⟨tA, h1, h2, h3⟩ := hok2 ([], []) (by decide)
  exact ⟨h2, h3 ([lead0], [RecA.created "c0" true]) (by decide)⟩

/-! ### C2 -/

/-- C2: `run_sync` always returns the statistics object it holds (no
exception can escape - the embedding is a total function), its result
is independent of the statistics present before the run (the reset),
and an exception escaping a flow bumps the error counter by exactly one
at run level: if Flow B raises the run ends with Flow B's errors plus
one (Flow A never runs), if Flow A raises the run ends with Flow A's
errors plus one, and if nothing escapes the final statistics are Flow
A's statistics unchanged. -/
theorem run_sync_error_containment (cfg : TrelloCfg) (faults : FaultO)
    (s : S) :
    (run_sync cfg faults s).1 = (run_sync cfg faults s).2.stats ∧
    (∀ σ : Stats,
       run_sync cfg faults { s with stats := σ } = run_sync cfg faults s) ∧
    ((syncTasksToLeads cfg faults (resetStats s)).1 = .error () →
       (run_sync cfg faults s).1.errors =
         (syncTasksToLeads cfg faults (resetStats s)).2.stats.errors + 1) ∧
    (∀ b, (syncTasksToLeads cfg faults (resetStats s)).1 = .ok b →
       ((syncLeadsToTasks cfg faults
           ((syncTasksToLeads cfg faults (resetStats s)).2)).1 = .error () →
          (run_sync cfg faults s).1.errors =
            (syncLeadsToTasks cfg faults
              ((syncTasksToLeads cfg faults (resetStats s)).2)).2.stats.errors
              + 1) ∧
       (∀ a, (syncLeadsToTasks cfg faults
           ((syncTasksToLeads cfg faults (resetStats s)).2)).1 = .ok a →
          (run_sync cfg faults s).1 =
            (syncLeadsToTasks cfg faults
              ((syncTasksToLeads cfg faults (resetStats s)).2)).2.stats)) := by
  refine ⟨?_, ?_, ?_, ?_⟩
  · unfold run_sync
    dsimp only
    rcases hB : syncTasksToLeads cfg faults (resetStats s) with ⟨rB, sB⟩
    rcases rB with e | bb
    · rfl
    · dsimp only
      rcases hA : syncLeadsToTasks cfg faults sB with ⟨rA, sA⟩
      rcases rA with e | aa <;> rfl
  · intro σ
    rfl
  · intro herr
    rcases hB : syncTasksToLeads cfg faults (resetStats s) with ⟨rB, sB⟩
    rw [hB] at herr
    have herr2 : rB = .error () := herr
    unfold run_sync
    dsimp only
    rw [hB]
    subst herr2
    rfl
  · intro b hok
    rcases hB : syncTasksToLeads cfg faults (resetStats s) with ⟨rB, sB⟩
    rw [hB] at hok
    have hok2 : rB = .ok b := hok
    subst hok2
    constructor
    · intro herr
      rcases hA : syncLeadsToTasks cfg faults sB with ⟨rA, sA⟩
      rw [hA] at herr
      have herr2 : rA = .error () := herr
      unfold run_sync
      dsimp only
      rw [hB]
      dsimp only
      rw [hA]
      subst herr2
      rfl
    · intro a ha
      rcases hA : syncLeadsToTasks cfg faults sB with ⟨rA, sA⟩
      rw [hA] at ha
      have ha2 : rA = .ok a := ha
      unfold run_sync
      dsimp only
      rw [hB]
      dsimp only
      rw [hA]
      subst ha2
      rfl

/-- Witness for C2: a run whose board fetch raises ends with the error
counter bumped once, and a clean run returns its final statistics. -/
theorem run_sync_error_containment_witness :
    (run_sync cfg0 faultsExn s0).1.errors =
      (syncTasksToLeads cfg0 faultsExn (resetStats s0)).2.stats.errors + 1 ∧
    (run_sync cfg0 faultsOk s0).1 = (run_sync cfg0 faultsOk s0).2.stats :=
  ⟨(run_sync_error_containment cfg0 faultsExn s0).2.2.1 (by decide),
   (run_sync_error_containment cfg0 faultsOk s0).1⟩

/-! ### C3 -/

/-- C3: for a record with empty `task_ref` and non-empty name, one
execution of the forward flow performs exactly one creation call
followed by exactly one write of the new task id into the record's
`task_ref` (trace `[read, create, read, write]`); a second execution on
the resulting state finds the card and performs zero creation calls and
at most one update call. -/
theorem forward_flow_idempotent (cfg : TrelloCfg) (faults : FaultO)
    (s : S) (l : Lead)
    (hname : ¬ pyStrip l.name = "")
    (href : pyStrip l.trello_task_id = "")
    (hleads : s.world.leads = [l])
    (hok : ∀ n, faults n = .ok)
    (hgenTrim : pyStrip (cfg.genId s.world.nextCardId) =
      cfg.genId s.world.nextCardId)
    (hgenNe : ¬ cfg.genId s.world.nextCardId = "")
    (hfresh : s.world.cards.find?
      (fun c => c.id == cfg.genId s.world.nextCardId) = none) :
    ∃ s1, syncLeadsToTasks cfg faults s =
        (.ok ([l], [.created (cfg.genId s.world.nextCardId) true]), s1) ∧
      s1.trace = s.trace ++
        [.readLeads, .createCard l.name, .readLeads, .writeLead l.row_number] ∧
      countCreates (s1.trace.drop s.trace.length) = 1 ∧
      countLeadWrites (s1.trace.drop s.trace.length) = 1 ∧
      s1.world.leads =
        [{ l with trello_task_id := cfg.genId s.world.nextCardId }] ∧
      ∃ r2 s2, syncLeadsToTasks cfg faults s1 =
          (.ok ([{ l with trello_task_id := cfg.genId s.world.nextCardId }],
                [r2]), s2) ∧
        (r2 = RecA.noChange ∨ r2 = RecA.updated) ∧
        countCreates (s2.trace.drop s1.trace.length) = 0 ∧
        countCardUpdates (s2.trace.drop s1.trace.length) ≤ 1 := by
  have hfind : s.world.leads.find? (fun x => x.row_number == l.row_number) =
      some l := by
    rw [hleads]; simp
  have hP1 := processLead_create_ok cfg faults
    { s with tick := s.tick + 1, trace := s.trace ++ [Event.readLeads] } l l
    hname href (by simpa using hok (s.tick + 1)) (by simpa using hok (s.tick + 2))
    (by simpa using hok (s.tick + 3)) (by simpa using hfind)
  have hr1 : (processLeadToTask cfg faults
      { s with tick := s.tick + 1, trace := s.trace ++ [Event.readLeads] }
      l).1 = .created (cfg.genId s.world.nextCardId) true := by
    rw [hP1]
  have hs1 := congrArg Prod.snd hP1
  have hflow1 : syncLeadsToTasks cfg faults s =
      (.ok ([l], [.created (cfg.genId s.world.nextCardId) true]),
       (processLeadToTask cfg faults
         { s with tick := s.tick + 1, trace := s.trace ++ [Event.readLeads] }
         l).2) := by
    rw [syncLeads_singleton cfg faults s l (hok s.tick) hleads
          (by rw [hr1]; simp), hr1]
  refine ⟨_, hflow1, ?_, ?_, ?_, ?_, ?_⟩
  · rw [hs1]
    simp
  · rw [hs1]
    simp [List.drop_left]
    rfl
  · rw [hs1]
    simp [List.drop_left]
    rfl
  · rw [hs1]
    simp [hleads, applyLeadUpdates]
  · obtain ⟨S1, hS1⟩ : ∃ S1, (processLeadToTask cfg faults
        { s with tick := s.tick + 1, trace := s.trace ++ [Event.readLeads] }
        l).2 = S1 := ⟨_, rfl⟩
    have hws : S1.world.leads =
        [{ l with trello_task_id := cfg.genId s.world.nextCardId }] := by
      rw [← hS1, hs1]
      simp [hleads, applyLeadUpdates]
    have hcards : S1.world.cards =
        s.world.cards ++ [mintedCard cfg s.world l] := by
      rw [← hS1, hs1]
    rw [hS1]
    have hname2 : ¬ pyStrip
        ({ l with trello_task_id := cfg.genId s.world.nextCardId } : Lead).name
        = "" := hname
    have hrefne2 : ¬ pyStrip
        ({ l with trello_task_id := cfg.genId s.world.nextCardId } : Lead
          ).trello_task_id = "" := by
      show ¬ pyStrip (cfg.genId s.world.nextCardId) = ""
      rw [hgenTrim]
      exact hgenNe
    have hsome : ({ S1 with tick := S1.tick + 1,
                            trace := S1.trace ++ [Event.readLeads] } : S
        ).world.cards.find?
        (fun c => c.id == pyStrip
          ({ l with trello_task_id := cfg.genId s.world.nextCardId } : Lead
            ).trello_task_id) = some (mintedCard cfg s.world l) := by
      show S1.world.cards.find?
          (fun c => c.id == pyStrip
            ({ l with trello_task_id := cfg.genId s.world.nextCardId } : Lead
              ).trello_task_id) = some (mintedCard cfg s.world l)
      rw [hcards]
      have hps : pyStrip
          ({ l with trello_task_id := cfg.genId s.world.nextCardId } : Lead
            ).trello_task_id = cfg.genId s.world.nextCardId := hgenTrim
      simp only [hps]
      rw [List.find?_append, hfresh]
      simp [mintedCard]
    have hP2 := processLead_linked cfg faults
      ({ S1 with tick := S1.tick + 1,
                 trace := S1.trace ++ [Event.readLeads] } : S)
      { l with trello_task_id := cfg.genId s.world.nextCardId }
      (mintedCard cfg s.world l) hname2 hrefne2 hsome (hok _) (hok _)
    rcases hP2 with heq | ⟨hu1, hu2, hu3⟩
    · have hr2 : (processLeadToTask cfg faults
          ({ S1 with tick := S1.tick + 1,
                     trace := S1.trace ++ [Event.readLeads] } : S)
          { l with trello_task_id := cfg.genId s.world.nextCardId }).1 =
          RecA.noChange := by
        rw [heq]
      have htr2 : (processLeadToTask cfg faults
          ({ S1 with tick := S1.tick + 1,
                     trace := S1.trace ++ [Event.readLeads] } : S)
          { l with trello_task_id := cfg.genId s.world.nextCardId }).2.trace =
          S1.trace ++ [Event.readLeads,
            Event.getCard (pyStrip
              ({ l with trello_task_id := cfg.genId s.world.nextCardId } : Lead
                ).trello_task_id)] := by
        rw [heq]
        simp
      have hflow2 := syncLeads_singleton cfg faults S1
        { l with trello_task_id := cfg.genId s.world.nextCardId }
        (hok _) hws (by rw [hr2]; simp)
      refine ⟨RecA.noChange, _, by rw [hflow2, hr2], Or.inl rfl, ?_, ?_⟩
      · rw [htr2, List.drop_left]
        rfl
      · rw [htr2, List.drop_left]
        simp [countCardUpdates]
    · have htr2 : (processLeadToTask cfg faults
          ({ S1 with tick := S1.tick + 1,
                     trace := S1.trace ++ [Event.readLeads] } : S)
          { l with trello_task_id := cfg.genId s.world.nextCardId }).2.trace =
          S1.trace ++ [Event.readLeads,
            Event.getCard (pyStrip
              ({ l with trello_task_id := cfg.genId s.world.nextCardId } : Lead
                ).trello_task_id),
            Event.updateCard (pyStrip
              ({ l with trello_task_id := cfg.genId s.world.nextCardId } : Lead
                ).trello_task_id)] := by
        rw [hu2]
        simp
      have hflow2 := syncLeads_singleton cfg faults S1
        { l with trello_task_id := cfg.genId s.world.nextCardId }
        (hok _) hws (by rw [hu1]; simp)
      refine ⟨RecA.updated, _, by rw [hflow2, hu1], Or.inr rfl, ?_, ?_⟩
      · rw [htr2, List.drop_left]
        rfl
      · rw [htr2, List.drop_left]
        simp [countCardUpdates]

/-- Witness for C3 at the concrete unlinked lead. -/
theorem forward_flow_idempotent_witness :
    ∃ s1, syncLeadsToTasks cfg0 faultsOk s0 =
        (.ok ([lead0], [.created (cfg0.genId s0.world.nextCardId) true]), s1) ∧
      s1.trace = s0.trace ++
        [.readLeads, .createCard lead0.name, .readLeads,
         .writeLead lead0.row_number] ∧
      countCreates (s1.trace.drop s0.trace.length) = 1 ∧
      countLeadWrites (s1.trace.drop s0.trace.length) = 1 ∧
      s1.world.leads =
        [{ lead0 with trello_task_id := cfg0.genId s0.world.nextCardId }] ∧
      ∃ r2 s2, syncLeadsToTasks cfg0 faultsOk s1 =
          (.ok ([{ lead0 with
                     trello_task_id := cfg0.genId s0.world.nextCardId }],
                [r2]), s2) ∧
        (r2 = RecA.noChange ∨ r2 = RecA.updated) ∧
        countCreates (s2.trace.drop s1.trace.length) = 0 ∧
        countCardUpdates (s2.trace.drop s1.trace.length) ≤ 1 :=
  forward_flow_idempotent cfg0 faultsOk s0 lead0 (by decide) (by decide)
    (by decide) (fun n => rfl) (by decide) (by decide) (by decide)

end SyncModel
